import Mathlib

/-!
# Question repository of `main.cpp` (Bloom taxonomy question manager)

Shallow embedding of the classes `Pregunta` (with its three derived classes) and
`GestorPreguntas`, followed by the properties of the repository operations
`agregarPregunta`, `actualizarPregunta`, `eliminarPregunta` and `getPregunta`.

Modelling conventions.
* `std::string` is `String`, `std::vector<T>` is `List T`, `std::unique_ptr<Pregunta>`
  is the owned value `Pregunta`.
* `int` is `Int`.  The only arithmetic the repository performs on an `int` is the
  increment `siguienteId++` and the sum `tiempoTotal += ...` of `calcularTiempoTotal`
  (both wrapped to 32 bits by `wrapInt`), and `anio - 1`, which is evaluated only
  when `anio > 1` and so stays in range.
* A `Pregunta *` returned by a query is the pointed-to question.
* `std::set<std::string>` and `std::map<K, V>` are never iterated by the program;
  only `count`, `operator[]`, `insert` and `erase` are used.  They are modelled by
  lists with exactly these operations.
* An iterator into `preguntas` is a position; `preguntas.end()` is `none`.
-/

namespace Paradigmas

/-! ## Question model -/

/-- Fields added by the derived classes `PreguntaOpcionMultiple`,
`PreguntaVerdaderoFalso` and `PreguntaEmparejamiento`; `base` is an object of the
(concrete) class `Pregunta` itself. -/
inductive Detalle where
  | base
  | opcionMultiple (opciones : List String) (opcionCorrecta : Int)
  | verdaderoFalso (respuestaCorrecta : Bool)
  | emparejamiento (elementosIzquierda : List String) (elementosDerecha : List String)
      (emparejamientosCorrectos : List Int)
  deriving DecidableEq, Repr

/-- Class `Pregunta`: the five protected fields of the base class and the fields of
the dynamic type. -/
structure Pregunta where
  id : Int
  texto : String
  nivelBloom : Int
  tiempoEstimado : Int
  anio : Int
  detalle : Detalle
  deriving DecidableEq, Repr

/-- Constructor `PreguntaOpcionMultiple(id, texto, nivelBloom, tiempoEstimado, opciones,
opcionCorrecta, anio)`. -/
def PreguntaOpcionMultiple (id : Int) (texto : String) (nivelBloom tiempoEstimado : Int)
    (opciones : List String) (opcionCorrecta : Int) (anio : Int) : Pregunta :=
  { id := id, texto := texto, nivelBloom := nivelBloom, tiempoEstimado := tiempoEstimado,
    anio := anio, detalle := Detalle.opcionMultiple opciones opcionCorrecta }

/-- Constructor `PreguntaVerdaderoFalso(id, texto, nivelBloom, tiempoEstimado,
respuestaCorrecta, anio)`. -/
def PreguntaVerdaderoFalso (id : Int) (texto : String) (nivelBloom tiempoEstimado : Int)
    (respuestaCorrecta : Bool) (anio : Int) : Pregunta :=
  { id := id, texto := texto, nivelBloom := nivelBloom, tiempoEstimado := tiempoEstimado,
    anio := anio, detalle := Detalle.verdaderoFalso respuestaCorrecta }

/-- Method `Pregunta::setAnio`. -/
def Pregunta.setAnio (p : Pregunta) (nuevoAnio : Int) : Pregunta :=
  { p with anio := nuevoAnio }

/-- Method `PreguntaOpcionMultiple::getOpciones` (`none` for another dynamic type). -/
def Pregunta.getOpciones (p : Pregunta) : Option (List String) :=
  match p.detalle with
  | Detalle.opcionMultiple opciones _ => some opciones
  | _ => none

/-- Method `PreguntaOpcionMultiple::getOpcionCorrecta` (`none` for another dynamic type). -/
def Pregunta.getOpcionCorrecta (p : Pregunta) : Option Int :=
  match p.detalle with
  | Detalle.opcionMultiple _ opcionCorrecta => some opcionCorrecta
  | _ => none

/-! ## Containers -/

/-- `std::set<std::string>::count`. -/
def setCount (c : List String) (t : String) : Nat :=
  if t ∈ c then 1 else 0

/-- `std::set<std::string>::insert`. -/
def setInsert (c : List String) (t : String) : List String :=
  if t ∈ c then c else c ++ [t]

/-- `std::set<std::string>::erase` (by key). -/
def setErase (c : List String) (t : String) : List String :=
  c.filter (fun x => decide (x ≠ t))

/-- `std::map::find`: the mapped value, `none` for `end()`. -/
def mapFind {κ ν : Type} [DecidableEq κ] : List (κ × ν) → κ → Option ν
  | [], _ => none
  | (k', v) :: m, k => if k' = k then some v else mapFind m k

/-- `std::map::count`. -/
def mapCount {κ ν : Type} [DecidableEq κ] (m : List (κ × ν)) (k : κ) : Nat :=
  if (mapFind m k).isSome then 1 else 0

/-- Assignment `m[k] = v`: overwrites the entry of `k`, or creates it. -/
def mapAssign {κ ν : Type} [DecidableEq κ] : List (κ × ν) → κ → ν → List (κ × ν)
  | [], k, v => [(k, v)]
  | (k', v') :: m, k, v => if k' = k then (k, v) :: m else (k', v') :: mapAssign m k v

/-- `std::map::erase` (by key). -/
def mapErase {κ ν : Type} [DecidableEq κ] (m : List (κ × ν)) (k : κ) : List (κ × ν) :=
  m.filter (fun e => decide (e.1 ≠ k))

/-- The set read by `preguntasPorAnio[anio]`; a missing key is default-constructed, so
it reads as the empty set. -/
def textosDeAnio (m : List (Int × List String)) (anio : Int) : List String :=
  (mapFind m anio).getD []

/-- Statement `preguntasPorAnio[anio].insert(texto)`. -/
def registrarAnio (m : List (Int × List String)) (anio : Int) (texto : String) :
    List (Int × List String) :=
  mapAssign m anio (setInsert (textosDeAnio m anio) texto)

/-- Statement `preguntasPorAnio[anio].erase(texto)`; `operator[]` creates the key when
it is missing. -/
def borrarAnio (m : List (Int × List String)) (anio : Int) (texto : String) :
    List (Int × List String) :=
  mapAssign m anio (setErase (textosDeAnio m anio) texto)

/-- Value of an `int` after an increment or an addition, on a 32-bit two's complement
target. -/
def wrapInt (x : Int) : Int :=
  (x + 2147483648) % 4294967296 - 2147483648

/-! ## Repository -/

/-- Class `GestorPreguntas`: its four data members. -/
structure GestorPreguntas where
  preguntas : List Pregunta
  siguienteId : Int
  preguntasPorAnio : List (Int × List String)
  textoAPreguntaId : List (String × Int)
  deriving DecidableEq, Repr

/-- A freshly constructed `GestorPreguntas` (`siguienteId = 1`, empty containers). -/
def GestorPreguntas.vacio : GestorPreguntas :=
  { preguntas := [], siguienteId := 1, preguntasPorAnio := [], textoAPreguntaId := [] }

/-- Method `GestorPreguntas::esPreguntaSimilar`.  The method is not `const`, but it
indexes `preguntasPorAnio` only under a key whose `count` is positive, so it leaves
the object unchanged. -/
def GestorPreguntas.esPreguntaSimilar (g : GestorPreguntas) (texto : String) (anio : Int) :
    Bool :=
  if anio > 0 ∧ mapCount g.preguntasPorAnio anio > 0
      ∧ setCount (textosDeAnio g.preguntasPorAnio anio) texto > 0 then true
  else if anio > 1 ∧ mapCount g.preguntasPorAnio (anio - 1) > 0
      ∧ setCount (textosDeAnio g.preguntasPorAnio (anio - 1)) texto > 0 then true
  else if mapCount g.textoAPreguntaId texto > 0 then true
  else false

/-- Method `GestorPreguntas::agregarPregunta`: the returned `int` and the object
afterwards. -/
def GestorPreguntas.agregarPregunta (g : GestorPreguntas) (pregunta : Pregunta) :
    Int × GestorPreguntas :=
  let texto := pregunta.texto
  let anio := pregunta.anio
  if g.esPreguntaSimilar texto anio then (-1, g)
  else
    let id := g.siguienteId
    let pregunta := pregunta.setAnio anio
    (id,
      { preguntas := g.preguntas ++ [pregunta]
        siguienteId := wrapInt (g.siguienteId + 1)
        preguntasPorAnio :=
          if anio > 0 then registrarAnio g.preguntasPorAnio anio texto
          else g.preguntasPorAnio
        textoAPreguntaId := mapAssign g.textoAPreguntaId texto id })

/-- The call `std::find_if(preguntas.begin(), preguntas.end(), [id](p) { return
p->getId() == id; })`: position of the first question whose id is `id`. -/
def findIf : List Pregunta → Int → Option Nat
  | [], _ => none
  | p :: ps, id => if p.id = id then some 0 else (findIf ps id).map (fun i => i + 1)

/-- Method `GestorPreguntas::actualizarPregunta`: the returned `bool` and the object
afterwards. -/
def GestorPreguntas.actualizarPregunta (g : GestorPreguntas) (id : Int)
    (preguntaActualizada : Pregunta) : Bool × GestorPreguntas :=
  match findIf g.preguntas id with
  | none => (false, g)
  | some it =>
    match g.preguntas[it]? with
    | none => (false, g)
    | some anterior =>
      let textoAnterior := anterior.texto
      let anioAnterior := anterior.anio
      let porAnio :=
        if anioAnterior > 0 then borrarAnio g.preguntasPorAnio anioAnterior textoAnterior
        else g.preguntasPorAnio
      let aId := mapErase g.textoAPreguntaId textoAnterior
      let g1 : GestorPreguntas := { g with preguntasPorAnio := porAnio, textoAPreguntaId := aId }
      let nuevoTexto := preguntaActualizada.texto
      let nuevoAnio := preguntaActualizada.anio
      if nuevoTexto ≠ textoAnterior ∧ g1.esPreguntaSimilar nuevoTexto nuevoAnio = true then
        (false,
          { g1 with
            preguntasPorAnio :=
              if anioAnterior > 0 then registrarAnio porAnio anioAnterior textoAnterior
              else porAnio
            textoAPreguntaId := mapAssign aId textoAnterior id })
      else
        (true,
          { g1 with
            preguntasPorAnio :=
              if nuevoAnio > 0 then registrarAnio porAnio nuevoAnio nuevoTexto
              else porAnio
            textoAPreguntaId := mapAssign aId nuevoTexto id
            preguntas := g.preguntas.set it preguntaActualizada })

/-- Method `GestorPreguntas::eliminarPregunta`: the returned `bool` and the object
afterwards. -/
def GestorPreguntas.eliminarPregunta (g : GestorPreguntas) (id : Int) :
    Bool × GestorPreguntas :=
  match findIf g.preguntas id with
  | none => (false, g)
  | some it =>
    match g.preguntas[it]? with
    | none => (false, g)
    | some p =>
      let texto := p.texto
      let anio := p.anio
      (true,
        { g with
          preguntasPorAnio :=
            if anio > 0 then borrarAnio g.preguntasPorAnio anio texto
            else g.preguntasPorAnio
          textoAPreguntaId := mapErase g.textoAPreguntaId texto
          preguntas := g.preguntas.eraseIdx it })

/-- Method `GestorPreguntas::getPregunta`; `none` is `nullptr`. -/
def GestorPreguntas.getPregunta (g : GestorPreguntas) (id : Int) : Option Pregunta :=
  match findIf g.preguntas id with
  | none => none
  | some it => g.preguntas[it]?

/-- Method `GestorPreguntas::buscarPorNivelBloom`: the loop over `preguntas` that pushes
the matching questions onto `resultado`. -/
def GestorPreguntas.buscarPorNivelBloom (g : GestorPreguntas) (nivel : Int) : List Pregunta :=
  g.preguntas.foldl
    (fun resultado p => if p.nivelBloom = nivel then resultado ++ [p] else resultado) []

/-- Method `GestorPreguntas::buscarPorAnio`: the loop over `preguntas` that pushes the
matching questions onto `resultado`. -/
def GestorPreguntas.buscarPorAnio (g : GestorPreguntas) (anio : Int) : List Pregunta :=
  g.preguntas.foldl
    (fun resultado p => if p.anio = anio then resultado ++ [p] else resultado) []

/-- Method `GestorPreguntas::calcularTiempoTotal`: the loop `tiempoTotal +=
p->getTiempoEstimado()` on an `int` accumulator. -/
def GestorPreguntas.calcularTiempoTotal (g : GestorPreguntas) : Int :=
  g.preguntas.foldl (fun tiempoTotal p => wrapInt (tiempoTotal + p.tiempoEstimado)) 0

/-- Method `GestorPreguntas::getTodasLasPreguntas`: the loop that pushes every question
onto `resultado`. -/
def GestorPreguntas.getTodasLasPreguntas (g : GestorPreguntas) : List Pregunta :=
  g.preguntas.foldl (fun resultado p => resultado ++ [p]) []

/-! ## Call sequences -/

/-- One call on the repository. -/
inductive Operacion where
  | agregar (pregunta : Pregunta)
  | actualizar (id : Int) (preguntaActualizada : Pregunta)
  | eliminar (id : Int)
  deriving DecidableEq, Repr

/-- The repository after one call. -/
def GestorPreguntas.aplicar (g : GestorPreguntas) : Operacion → GestorPreguntas
  | Operacion.agregar p => (g.agregarPregunta p).2
  | Operacion.actualizar id p => (g.actualizarPregunta id p).2
  | Operacion.eliminar id => (g.eliminarPregunta id).2

/-- The repository after a sequence of calls, first call first. -/
def GestorPreguntas.ejecutar (g : GestorPreguntas) : List Operacion → GestorPreguntas
  | [] => g
  | op :: ops => (g.aplicar op).ejecutar ops

/-- The values returned by the `agregarPregunta` calls of a sequence, in call order. -/
def GestorPreguntas.idsDevueltos (g : GestorPreguntas) : List Operacion → List Int
  | [] => []
  | Operacion.agregar p :: ops =>
      (g.agregarPregunta p).1 :: (g.agregarPregunta p).2.idsDevueltos ops
  | op :: ops => (g.aplicar op).idsDevueltos ops

/-! ## The single-rule variant of the duplicate check

The specification proposes to replace the three rules of `esPreguntaSimilar` by the
global exact-text check alone.  The definitions of this section follow that proposal;
they are compared with the methods of the source further down. -/

/-- The single check of the specification: `texto` is a key of `textoAPreguntaId`. -/
def GestorPreguntas.esSimilarSoloTexto (g : GestorPreguntas) (texto : String) : Bool :=
  decide (mapCount g.textoAPreguntaId texto > 0)

/-- The method `agregarPregunta` with the duplicate check replaced by the single check
of the specification. -/
def GestorPreguntas.agregarPreguntaSoloTexto (g : GestorPreguntas) (pregunta : Pregunta) :
    Int × GestorPreguntas :=
  let texto := pregunta.texto
  let anio := pregunta.anio
  if g.esSimilarSoloTexto texto then (-1, g)
  else
    let id := g.siguienteId
    let pregunta := pregunta.setAnio anio
    (id,
      { preguntas := g.preguntas ++ [pregunta]
        siguienteId := wrapInt (g.siguienteId + 1)
        preguntasPorAnio :=
          if anio > 0 then registrarAnio g.preguntasPorAnio anio texto
          else g.preguntasPorAnio
        textoAPreguntaId := mapAssign g.textoAPreguntaId texto id })

/-- The method `actualizarPregunta` with the duplicate check replaced by the single
check of the specification. -/
def GestorPreguntas.actualizarPreguntaSoloTexto (g : GestorPreguntas) (id : Int)
    (preguntaActualizada : Pregunta) : Bool × GestorPreguntas :=
  match findIf g.preguntas id with
  | none => (false, g)
  | some it =>
    match g.preguntas[it]? with
    | none => (false, g)
    | some anterior =>
      let textoAnterior := anterior.texto
      let anioAnterior := anterior.anio
      let porAnio :=
        if anioAnterior > 0 then borrarAnio g.preguntasPorAnio anioAnterior textoAnterior
        else g.preguntasPorAnio
      let aId := mapErase g.textoAPreguntaId textoAnterior
      let g1 : GestorPreguntas := { g with preguntasPorAnio := porAnio, textoAPreguntaId := aId }
      let nuevoTexto := preguntaActualizada.texto
      let nuevoAnio := preguntaActualizada.anio
      if nuevoTexto ≠ textoAnterior ∧ g1.esSimilarSoloTexto nuevoTexto = true then
        (false,
          { g1 with
            preguntasPorAnio :=
              if anioAnterior > 0 then registrarAnio porAnio anioAnterior textoAnterior
              else porAnio
            textoAPreguntaId := mapAssign aId textoAnterior id })
      else
        (true,
          { g1 with
            preguntasPorAnio :=
              if nuevoAnio > 0 then registrarAnio porAnio nuevoAnio nuevoTexto
              else porAnio
            textoAPreguntaId := mapAssign aId nuevoTexto id
            preguntas := g.preguntas.set it preguntaActualizada })

/-- Every addition `tiempoTotal += p->getTiempoEstimado()` of the loop of
`calcularTiempoTotal`, run over `l` from the running total `total`, stays within the
range of `int` (between `-2^31` and `2^31 - 1`). -/
def sumaEnRango (total : Int) : List Pregunta → Bool
  | [] => true
  | p :: ps =>
    decide (-2147483648 ≤ total + p.tiempoEstimado ∧ total + p.tiempoEstimado < 2147483648)
      && sumaEnRango (total + p.tiempoEstimado) ps

/-! ## Auxiliary notions for the proofs -/

/-- The two validation maps after the statements that unregister the question `a`
(`preguntasPorAnio[anio].erase(texto)` under `anio > 0`, `textoAPreguntaId.erase(texto)`). -/
def sinRegistro (g : GestorPreguntas) (a : Pregunta) : GestorPreguntas :=
  { g with
    preguntasPorAnio :=
      if a.anio > 0 then borrarAnio g.preguntasPorAnio a.anio a.texto
      else g.preguntasPorAnio
    textoAPreguntaId := mapErase g.textoAPreguntaId a.texto }

/-- The two validation maps after the statements that register the question `q` under
the id `id` (`preguntasPorAnio[anio].insert(texto)` under `anio > 0`,
`textoAPreguntaId[texto] = id`). -/
def conRegistro (g : GestorPreguntas) (q : Pregunta) (id : Int) : GestorPreguntas :=
  { g with
    preguntasPorAnio :=
      if q.anio > 0 then registrarAnio g.preguntasPorAnio q.anio q.texto
      else g.preguntasPorAnio
    textoAPreguntaId := mapAssign g.textoAPreguntaId q.texto id }

/-- The validation maps of `g` describe the questions of the list `l`: the set of a
year holds the texts of the questions of `l` with that (positive) year, and the keys
of `textoAPreguntaId` are the texts of the questions of `l`. -/
def Indices (g : GestorPreguntas) (l : List Pregunta) : Prop :=
  (∀ (y : Int) (t : String), t ∈ textosDeAnio g.preguntasPorAnio y ↔
      (0 < y ∧ ∃ p ∈ l, p.texto = t ∧ p.anio = y))
  ∧ (∀ t : String, (mapFind g.textoAPreguntaId t).isSome = true ↔ ∃ p ∈ l, p.texto = t)

/-- The validation maps describe the stored questions, and no text is stored twice. -/
def Consistente (g : GestorPreguntas) : Prop :=
  Indices g g.preguntas ∧ (g.preguntas.map Pregunta.texto).Nodup

/-! ## Container lemmas -/

theorem mem_setInsert (c : List String) (t x : String) :
    x ∈ setInsert c t ↔ x ∈ c ∨ x = t := by
  unfold setInsert
  by_cases h : t ∈ c
  · simp only [h, if_true]
    constructor
    · intro hx; exact Or.inl hx
    · rintro (hx | hx)
      · exact hx
      · rw [hx]; exact h
  · simp [h]

theorem mem_setErase (c : List String) (t x : String) :
    x ∈ setErase c t ↔ x ∈ c ∧ x ≠ t := by
  simp [setErase]

theorem mapFind_mapAssign {κ ν : Type} [DecidableEq κ] (m : List (κ × ν)) (k k' : κ) (v : ν) :
    mapFind (mapAssign m k v) k' = if k = k' then some v else mapFind m k' := by
  induction m with
  | nil => simp [mapAssign, mapFind]
  | cons e m ih =>
    obtain ⟨k0, v0⟩ := e
    by_cases h0 : k0 = k
    · subst h0
      by_cases h1 : k0 = k' <;> simp [mapAssign, mapFind, h1]
    · by_cases h1 : k0 = k'
      · subst h1
        have h2 : ¬ k = k0 := fun h => h0 h.symm
        simp [mapAssign, mapFind, h0, h2]
      · simp [mapAssign, mapFind, h0, h1, ih]

theorem mapFind_mapErase {κ ν : Type} [DecidableEq κ] (m : List (κ × ν)) (k k' : κ) :
    mapFind (mapErase m k) k' = if k = k' then none else mapFind m k' := by
  induction m with
  | nil => simp [mapErase, mapFind]
  | cons e m ih =>
    obtain ⟨k0, v0⟩ := e
    simp only [mapErase, ne_eq, decide_not] at ih ⊢
    by_cases h0 : k0 = k
    · subst h0
      by_cases h1 : k0 = k'
      · subst h1
        simpa [List.filter_cons, mapFind] using ih
      · simpa [List.filter_cons, mapFind, h1] using ih
    · by_cases h1 : k0 = k'
      · subst h1
        have h2 : ¬ k = k0 := fun h => h0 h.symm
        simp [List.filter_cons, mapFind, h0, h2]
      · simp [List.filter_cons, mapFind, h0, h1, ih]

theorem mem_textosDeAnio_registrarAnio (m : List (Int × List String)) (a y : Int)
    (t x : String) :
    x ∈ textosDeAnio (registrarAnio m a t) y ↔ x ∈ textosDeAnio m y ∨ (y = a ∧ x = t) := by
  unfold registrarAnio textosDeAnio
  rw [mapFind_mapAssign]
  by_cases h : a = y
  · subst h
    simp only [if_true, Option.getD_some, true_and]
    exact mem_setInsert _ _ _
  · have h' : ¬ y = a := fun e => h e.symm
    simp [h, h']

theorem mem_textosDeAnio_borrarAnio (m : List (Int × List String)) (a y : Int)
    (t x : String) :
    x ∈ textosDeAnio (borrarAnio m a t) y ↔ x ∈ textosDeAnio m y ∧ ¬ (y = a ∧ x = t) := by
  unfold borrarAnio textosDeAnio
  rw [mapFind_mapAssign]
  by_cases h : a = y
  · subst h
    simp only [if_true, Option.getD_some, true_and]
    exact mem_setErase _ _ _
  · have h' : ¬ y = a := fun e => h e.symm
    simp [h, h']

/-- The two nested tests `count(anio) > 0` and `[anio].count(texto) > 0` of
`esPreguntaSimilar` hold together exactly when `texto` is in the set of `anio`. -/
theorem count_count_iff (m : List (Int × List String)) (a : Int) (t : String) :
    (mapCount m a > 0 ∧ setCount (textosDeAnio m a) t > 0) ↔ t ∈ textosDeAnio m a := by
  unfold mapCount setCount textosDeAnio
  cases h : mapFind m a with
  | none => simp
  | some c => by_cases hc : t ∈ c <;> simp [hc]

theorem mapCount_pos_iff {κ ν : Type} [DecidableEq κ] (m : List (κ × ν)) (k : κ) :
    mapCount m k > 0 ↔ (mapFind m k).isSome = true := by
  unfold mapCount
  cases h : mapFind m k <;> simp

/-- The three rules of `esPreguntaSimilar`. -/
theorem esPreguntaSimilar_iff (g : GestorPreguntas) (t : String) (a : Int) :
    g.esPreguntaSimilar t a = true ↔
      (a > 0 ∧ t ∈ textosDeAnio g.preguntasPorAnio a)
      ∨ (a > 1 ∧ t ∈ textosDeAnio g.preguntasPorAnio (a - 1))
      ∨ (mapFind g.textoAPreguntaId t).isSome = true := by
  have e1 := count_count_iff g.preguntasPorAnio a t
  have e2 := count_count_iff g.preguntasPorAnio (a - 1) t
  have e3 := mapCount_pos_iff g.textoAPreguntaId t
  unfold GestorPreguntas.esPreguntaSimilar
  split_ifs with c1 c2 c3
  · exact ⟨fun _ => Or.inl ⟨c1.1, e1.mp c1.2⟩, fun _ => rfl⟩
  · exact ⟨fun _ => Or.inr (Or.inl ⟨c2.1, e2.mp c2.2⟩), fun _ => rfl⟩
  · exact ⟨fun _ => Or.inr (Or.inr (e3.mp c3)), fun _ => rfl⟩
  · constructor
    · intro h; exact absurd h (by decide)
    · rintro (h | h | h)
      · exact absurd ⟨h.1, e1.mpr h.2⟩ c1
      · exact absurd ⟨h.1, e2.mpr h.2⟩ c2
      · exact absurd (e3.mpr h) c3

/-! ## Lemmas on `find_if` -/

theorem findIf_none_iff (l : List Pregunta) (id : Int) :
    findIf l id = none ↔ ∀ p ∈ l, p.id ≠ id := by
  induction l with
  | nil => simp [findIf]
  | cons p ps ih =>
    by_cases h : p.id = id
    · simp [findIf, h]
    · simp [findIf, h, ih]

theorem findIf_some_split (l : List Pregunta) (id : Int) (it : Nat)
    (h : findIf l id = some it) :
    ∃ pre a post, l = pre ++ a :: post ∧ it = pre.length ∧ a.id = id
      ∧ ∀ p ∈ pre, p.id ≠ id := by
  induction l generalizing it with
  | nil => simp [findIf] at h
  | cons p ps ih =>
    by_cases hp : p.id = id
    · simp only [findIf, hp, if_true, Option.some.injEq] at h
      exact ⟨[], p, ps, rfl, by simp [← h], hp, by simp⟩
    · simp only [findIf, hp, if_false, Option.map_eq_some'] at h
      obtain ⟨j, hj, hit⟩ := h
      obtain ⟨pre, a, post, hl, hlen, ha, hpre⟩ := ih j hj
      refine ⟨p :: pre, a, post, by simp [hl], by simp [← hit, hlen], ha, ?_⟩
      intro x hx
      rcases List.mem_cons.mp hx with hx | hx
      · rw [hx]; exact hp
      · exact hpre x hx

theorem getElem?_split (pre : List Pregunta) (a : Pregunta) (post : List Pregunta) :
    (pre ++ a :: post)[pre.length]? = some a := by
  induction pre with
  | nil => simp
  | cons p ps ih => simpa using ih

theorem set_split (pre : List Pregunta) (a n : Pregunta) (post : List Pregunta) :
    (pre ++ a :: post).set pre.length n = pre ++ n :: post := by
  induction pre with
  | nil => rfl
  | cons p ps ih => simp [ih]

theorem eraseIdx_split (pre : List Pregunta) (a : Pregunta) (post : List Pregunta) :
    (pre ++ a :: post).eraseIdx pre.length = pre ++ post := by
  induction pre with
  | nil => rfl
  | cons p ps ih => simpa using ih

theorem findIf_split (pre : List Pregunta) (a : Pregunta) (post : List Pregunta) (id : Int)
    (ha : a.id = id) (hpre : ∀ p ∈ pre, p.id ≠ id) :
    findIf (pre ++ a :: post) id = some pre.length := by
  induction pre with
  | nil => simp [findIf, ha]
  | cons p ps ih =>
    have hp : p.id ≠ id := hpre p (List.mem_cons_self _ _)
    have ih' := ih (fun x hx => hpre x (List.mem_cons_of_mem _ hx))
    simp [findIf, hp, ih']

/-! ## The operations, case by case -/

theorem agregarPregunta_similar (g : GestorPreguntas) (q : Pregunta)
    (h : g.esPreguntaSimilar q.texto q.anio = true) :
    g.agregarPregunta q = (-1, g) := by
  simp [GestorPreguntas.agregarPregunta, h]

theorem agregarPregunta_nueva (g : GestorPreguntas) (q : Pregunta)
    (h : g.esPreguntaSimilar q.texto q.anio = false) :
    g.agregarPregunta q =
      (g.siguienteId,
        { preguntas := g.preguntas ++ [q]
          siguienteId := wrapInt (g.siguienteId + 1)
          preguntasPorAnio :=
            if q.anio > 0 then registrarAnio g.preguntasPorAnio q.anio q.texto
            else g.preguntasPorAnio
          textoAPreguntaId := mapAssign g.textoAPreguntaId q.texto g.siguienteId }) := by
  simp [GestorPreguntas.agregarPregunta, h, Pregunta.setAnio]

theorem eliminarPregunta_ausente (g : GestorPreguntas) (id : Int)
    (h : ∀ p ∈ g.preguntas, p.id ≠ id) : g.eliminarPregunta id = (false, g) := by
  have hf := (findIf_none_iff g.preguntas id).mpr h
  simp [GestorPreguntas.eliminarPregunta, hf]

theorem eliminarPregunta_presente (g : GestorPreguntas) (id : Int) (pre : List Pregunta)
    (a : Pregunta) (post : List Pregunta) (hl : g.preguntas = pre ++ a :: post)
    (ha : a.id = id) (hpre : ∀ p ∈ pre, p.id ≠ id) :
    g.eliminarPregunta id = (true, { sinRegistro g a with preguntas := pre ++ post }) := by
  have hf := findIf_split pre a post id ha hpre
  simp only [GestorPreguntas.eliminarPregunta, hl, hf, getElem?_split, eraseIdx_split,
    sinRegistro]

theorem actualizarPregunta_ausente (g : GestorPreguntas) (id : Int) (n : Pregunta)
    (h : ∀ p ∈ g.preguntas, p.id ≠ id) : g.actualizarPregunta id n = (false, g) := by
  have hf := (findIf_none_iff g.preguntas id).mpr h
  simp [GestorPreguntas.actualizarPregunta, hf]

theorem actualizarPregunta_rechazada (g : GestorPreguntas) (id : Int) (n : Pregunta)
    (pre : List Pregunta) (a : Pregunta) (post : List Pregunta)
    (hl : g.preguntas = pre ++ a :: post) (ha : a.id = id) (hpre : ∀ p ∈ pre, p.id ≠ id)
    (hr : n.texto ≠ a.texto ∧ (sinRegistro g a).esPreguntaSimilar n.texto n.anio = true) :
    g.actualizarPregunta id n = (false, conRegistro (sinRegistro g a) a id) := by
  have hf := findIf_split pre a post id ha hpre
  have hr' : n.texto ≠ a.texto ∧
      GestorPreguntas.esPreguntaSimilar
        { preguntas := pre ++ a :: post, siguienteId := g.siguienteId,
          preguntasPorAnio :=
            if a.anio > 0 then borrarAnio g.preguntasPorAnio a.anio a.texto
            else g.preguntasPorAnio,
          textoAPreguntaId := mapErase g.textoAPreguntaId a.texto } n.texto n.anio = true := by
    simpa [sinRegistro, hl] using hr
  simp only [GestorPreguntas.actualizarPregunta, hl, hf, getElem?_split]
  rw [if_pos hr']
  simp [conRegistro, sinRegistro, hl]

theorem actualizarPregunta_aceptada (g : GestorPreguntas) (id : Int) (n : Pregunta)
    (pre : List Pregunta) (a : Pregunta) (post : List Pregunta)
    (hl : g.preguntas = pre ++ a :: post) (ha : a.id = id) (hpre : ∀ p ∈ pre, p.id ≠ id)
    (hr : ¬ (n.texto ≠ a.texto ∧ (sinRegistro g a).esPreguntaSimilar n.texto n.anio = true)) :
    g.actualizarPregunta id n =
      (true, { conRegistro (sinRegistro g a) n id with preguntas := pre ++ n :: post }) := by
  have hf := findIf_split pre a post id ha hpre
  have hr' : ¬ (n.texto ≠ a.texto ∧
      GestorPreguntas.esPreguntaSimilar
        { preguntas := pre ++ a :: post, siguienteId := g.siguienteId,
          preguntasPorAnio :=
            if a.anio > 0 then borrarAnio g.preguntasPorAnio a.anio a.texto
            else g.preguntasPorAnio,
          textoAPreguntaId := mapErase g.textoAPreguntaId a.texto } n.texto n.anio = true) := by
    simpa [sinRegistro, hl] using hr
  simp only [GestorPreguntas.actualizarPregunta, hl, hf, getElem?_split]
  rw [if_neg hr']
  simp [conRegistro, sinRegistro, set_split]

/-! ## Consistency of the validation maps -/

theorem indices_conRegistro {g : GestorPreguntas} {l l' : List Pregunta} (q : Pregunta)
    (id : Int) (h : Indices g l) (hl : ∀ x, x ∈ l' ↔ x ∈ l ∨ x = q) :
    Indices (conRegistro g q id) l' := by
  obtain ⟨h1, h2⟩ := h
  constructor
  · intro y t
    by_cases hq : q.anio > 0
    · simp only [conRegistro, hq, if_true]
      rw [mem_textosDeAnio_registrarAnio, h1]
      constructor
      · rintro (⟨hy, p, hp, ht, ha⟩ | ⟨hy, ht⟩)
        · exact ⟨hy, p, (hl p).mpr (Or.inl hp), ht, ha⟩
        · exact ⟨by rw [hy]; exact hq, q, (hl q).mpr (Or.inr rfl), ht.symm, hy.symm⟩
      · rintro ⟨hy, p, hp, ht, ha⟩
        rcases (hl p).mp hp with hp | hp
        · exact Or.inl ⟨hy, p, hp, ht, ha⟩
        · subst hp; exact Or.inr ⟨ha.symm, ht.symm⟩
    · simp only [conRegistro, hq, if_false]
      rw [h1]
      constructor
      · rintro ⟨hy, p, hp, ht, ha⟩
        exact ⟨hy, p, (hl p).mpr (Or.inl hp), ht, ha⟩
      · rintro ⟨hy, p, hp, ht, ha⟩
        rcases (hl p).mp hp with hp | hp
        · exact ⟨hy, p, hp, ht, ha⟩
        · subst hp; rw [ha] at hq; exact absurd hy hq
  · intro t
    simp only [conRegistro]
    rw [mapFind_mapAssign]
    by_cases ht : q.texto = t
    · simp only [ht, if_true, Option.isSome_some, true_iff]
      exact ⟨q, (hl q).mpr (Or.inr rfl), ht⟩
    · simp only [ht, if_false]
      rw [h2]
      constructor
      · rintro ⟨p, hp, hpt⟩
        exact ⟨p, (hl p).mpr (Or.inl hp), hpt⟩
      · rintro ⟨p, hp, hpt⟩
        rcases (hl p).mp hp with hp | hp
        · exact ⟨p, hp, hpt⟩
        · subst hp; exact absurd hpt ht

theorem indices_sinRegistro {g : GestorPreguntas} {l l' : List Pregunta} (a : Pregunta)
    (h : Indices g l) (hl : ∀ x, x ∈ l ↔ x ∈ l' ∨ x = a)
    (hu : ∀ p ∈ l', p.texto ≠ a.texto) :
    Indices (sinRegistro g a) l' := by
  obtain ⟨h1, h2⟩ := h
  constructor
  · intro y t
    by_cases hq : a.anio > 0
    · simp only [sinRegistro, hq, if_true]
      rw [mem_textosDeAnio_borrarAnio, h1]
      constructor
      · rintro ⟨⟨hy, p, hp, ht, hpa⟩, hne⟩
        rcases (hl p).mp hp with hp | hp
        · exact ⟨hy, p, hp, ht, hpa⟩
        · subst hp; exact absurd ⟨hpa.symm, ht.symm⟩ hne
      · rintro ⟨hy, p, hp, ht, hpa⟩
        refine ⟨⟨hy, p, (hl p).mpr (Or.inl hp), ht, hpa⟩, ?_⟩
        rintro ⟨_, hta⟩
        exact hu p hp (ht.trans hta)
    · simp only [sinRegistro, hq, if_false]
      rw [h1]
      constructor
      · rintro ⟨hy, p, hp, ht, hpa⟩
        rcases (hl p).mp hp with hp | hp
        · exact ⟨hy, p, hp, ht, hpa⟩
        · subst hp; rw [hpa] at hq; exact absurd hy hq
      · rintro ⟨hy, p, hp, ht, hpa⟩
        exact ⟨hy, p, (hl p).mpr (Or.inl hp), ht, hpa⟩
  · intro t
    simp only [sinRegistro]
    rw [mapFind_mapErase]
    by_cases ht : a.texto = t
    · simp only [ht, if_true, Option.isSome_none, Bool.false_eq_true, false_iff]
      rintro ⟨p, hp, hpt⟩
      exact hu p hp (hpt.trans ht.symm)
    · simp only [ht, if_false]
      rw [h2]
      constructor
      · rintro ⟨p, hp, hpt⟩
        rcases (hl p).mp hp with hp | hp
        · exact ⟨p, hp, hpt⟩
        · subst hp; exact absurd hpt ht
      · rintro ⟨p, hp, hpt⟩
        exact ⟨p, (hl p).mpr (Or.inl hp), hpt⟩

/-- When the maps describe `l`, the three rules of `esPreguntaSimilar` accept exactly
the texts of `l`. -/
theorem indices_esPreguntaSimilar_iff {g : GestorPreguntas} {l : List Pregunta}
    (h : Indices g l) (t : String) (y : Int) :
    g.esPreguntaSimilar t y = true ↔ ∃ p ∈ l, p.texto = t := by
  rw [esPreguntaSimilar_iff, h.1, h.1, h.2]
  constructor
  · rintro (⟨_, _, p, hp, ht, _⟩ | ⟨_, _, p, hp, ht, _⟩ | ⟨p, hp, ht⟩) <;>
      exact ⟨p, hp, ht⟩
  · intro hp
    exact Or.inr (Or.inr hp)

theorem nodup_textos_split {pre post : List Pregunta} {a : Pregunta}
    (h : ((pre ++ a :: post).map Pregunta.texto).Nodup) :
    (∀ p ∈ pre ++ post, p.texto ≠ a.texto) ∧ ((pre ++ post).map Pregunta.texto).Nodup := by
  rw [List.map_append, List.map_cons, List.nodup_middle, List.nodup_cons,
    ← List.map_append] at h
  refine ⟨?_, h.2⟩
  intro p hp hpa
  exact h.1 (hpa ▸ List.mem_map_of_mem _ hp)

theorem nodup_textos_join {pre post : List Pregunta} {n : Pregunta}
    (h : ((pre ++ post).map Pregunta.texto).Nodup) (hn : ∀ p ∈ pre ++ post, p.texto ≠ n.texto) :
    ((pre ++ n :: post).map Pregunta.texto).Nodup := by
  rw [List.map_append, List.map_cons, List.nodup_middle, List.nodup_cons,
    ← List.map_append]
  refine ⟨?_, h⟩
  intro hmem
  obtain ⟨p, hp, hpt⟩ := List.mem_map.mp hmem
  exact hn p hp hpt

theorem mem_split_iff (pre post : List Pregunta) (a x : Pregunta) :
    x ∈ pre ++ a :: post ↔ x ∈ pre ++ post ∨ x = a := by
  simp only [List.mem_append, List.mem_cons]
  tauto

theorem vacio_consistente : Consistente GestorPreguntas.vacio := by
  refine ⟨⟨?_, ?_⟩, ?_⟩
  · intro y t; simp [GestorPreguntas.vacio, textosDeAnio, mapFind]
  · intro t; simp [GestorPreguntas.vacio, mapFind]
  · simp [GestorPreguntas.vacio]

theorem agregarPregunta_consistente (g : GestorPreguntas) (q : Pregunta)
    (h : Consistente g) : Consistente (g.agregarPregunta q).2 := by
  cases hs : g.esPreguntaSimilar q.texto q.anio with
  | true => rw [agregarPregunta_similar g q hs]; exact h
  | false =>
    rw [agregarPregunta_nueva g q hs]
    have hno : ¬ ∃ p ∈ g.preguntas, p.texto = q.texto := by
      intro hex
      have := (indices_esPreguntaSimilar_iff h.1 q.texto q.anio).mpr hex
      rw [hs] at this
      exact absurd this (by decide)
    constructor
    · have hmem : ∀ x, x ∈ g.preguntas ++ [q] ↔ x ∈ g.preguntas ∨ x = q := by
        intro x; simp
      exact indices_conRegistro q g.siguienteId h.1 hmem
    · show ((g.preguntas ++ [q]).map Pregunta.texto).Nodup
      have hnd : ((g.preguntas ++ []).map Pregunta.texto).Nodup := by simpa using h.2
      have hne : ∀ p ∈ g.preguntas ++ [], p.texto ≠ q.texto := by
        intro p hp hpq
        exact hno ⟨p, by simpa using hp, hpq⟩
      exact nodup_textos_join hnd hne

theorem eliminarPregunta_consistente (g : GestorPreguntas) (id : Int)
    (h : Consistente g) : Consistente (g.eliminarPregunta id).2 := by
  cases hf : findIf g.preguntas id with
  | none =>
    rw [eliminarPregunta_ausente g id ((findIf_none_iff _ _).mp hf)]; exact h
  | some it =>
    obtain ⟨pre, a, post, hl, _, ha, hpre⟩ := findIf_some_split _ _ _ hf
    rw [eliminarPregunta_presente g id pre a post hl ha hpre]
    have hn := h.2
    rw [hl] at hn
    obtain ⟨hu, hnd⟩ := nodup_textos_split hn
    have hi := h.1
    rw [hl] at hi
    refine ⟨?_, hnd⟩
    exact indices_sinRegistro a hi (mem_split_iff pre post a) hu

theorem actualizarPregunta_consistente (g : GestorPreguntas) (id : Int) (n : Pregunta)
    (h : Consistente g) : Consistente (g.actualizarPregunta id n).2 := by
  cases hf : findIf g.preguntas id with
  | none =>
    rw [actualizarPregunta_ausente g id n ((findIf_none_iff _ _).mp hf)]; exact h
  | some it =>
    obtain ⟨pre, a, post, hl, _, ha, hpre⟩ := findIf_some_split _ _ _ hf
    have hn := h.2
    rw [hl] at hn
    obtain ⟨hu, hnd⟩ := nodup_textos_split hn
    have hi := h.1
    rw [hl] at hi
    have hi1 : Indices (sinRegistro g a) (pre ++ post) :=
      indices_sinRegistro a hi (mem_split_iff pre post a) hu
    by_cases hr : n.texto ≠ a.texto ∧ (sinRegistro g a).esPreguntaSimilar n.texto n.anio = true
    · rw [actualizarPregunta_rechazada g id n pre a post hl ha hpre hr]
      have hi2 : Indices (conRegistro (sinRegistro g a) a id) (pre ++ a :: post) :=
        indices_conRegistro a id hi1 (mem_split_iff pre post a)
      refine ⟨?_, ?_⟩
      · show Indices (conRegistro (sinRegistro g a) a id) g.preguntas
        rw [hl]; exact hi2
      · show (g.preguntas.map Pregunta.texto).Nodup
        exact h.2
    · rw [actualizarPregunta_aceptada g id n pre a post hl ha hpre hr]
      have hi2 : Indices (conRegistro (sinRegistro g a) n id) (pre ++ n :: post) :=
        indices_conRegistro n id hi1 (mem_split_iff pre post n)
      refine ⟨hi2, ?_⟩
      show ((pre ++ n :: post).map Pregunta.texto).Nodup
      apply nodup_textos_join hnd
      intro p hp hpn
      by_cases hna : n.texto = a.texto
      · exact hu p hp (hpn.trans hna)
      · apply hr
        exact ⟨hna, (indices_esPreguntaSimilar_iff hi1 n.texto n.anio).mpr ⟨p, hp, hpn⟩⟩

theorem aplicar_consistente (g : GestorPreguntas) (op : Operacion) (h : Consistente g) :
    Consistente (g.aplicar op) := by
  cases op with
  | agregar q => exact agregarPregunta_consistente g q h
  | actualizar id q => exact actualizarPregunta_consistente g id q h
  | eliminar id => exact eliminarPregunta_consistente g id h

theorem ejecutar_consistente (g : GestorPreguntas) (ops : List Operacion)
    (h : Consistente g) : Consistente (g.ejecutar ops) := by
  induction ops generalizing g with
  | nil => exact h
  | cons op ops ih => exact ih (g.aplicar op) (aplicar_consistente g op h)

/-! ## The id counter -/

theorem wrapInt_eq (x : Int) (h1 : -2147483648 ≤ x) (h2 : x < 2147483648) : wrapInt x = x := by
  unfold wrapInt
  omega

theorem eliminarPregunta_siguienteId (g : GestorPreguntas) (id : Int) :
    (g.eliminarPregunta id).2.siguienteId = g.siguienteId := by
  cases hf : findIf g.preguntas id with
  | none => rw [eliminarPregunta_ausente g id ((findIf_none_iff _ _).mp hf)]
  | some it =>
    obtain ⟨pre, a, post, hl, _, ha, hpre⟩ := findIf_some_split _ _ _ hf
    rw [eliminarPregunta_presente g id pre a post hl ha hpre]
    rfl

theorem actualizarPregunta_siguienteId (g : GestorPreguntas) (id : Int) (n : Pregunta) :
    (g.actualizarPregunta id n).2.siguienteId = g.siguienteId := by
  cases hf : findIf g.preguntas id with
  | none => rw [actualizarPregunta_ausente g id n ((findIf_none_iff _ _).mp hf)]
  | some it =>
    obtain ⟨pre, a, post, hl, _, ha, hpre⟩ := findIf_some_split _ _ _ hf
    by_cases hr : n.texto ≠ a.texto ∧ (sinRegistro g a).esPreguntaSimilar n.texto n.anio = true
    · rw [actualizarPregunta_rechazada g id n pre a post hl ha hpre hr]; rfl
    · rw [actualizarPregunta_aceptada g id n pre a post hl ha hpre hr]; rfl

/-- Along a call sequence that cannot overflow the counter, the successful
`agregarPregunta` calls return consecutive values from `siguienteId` on, and the
counter ends that many steps further. -/
theorem idsDevueltos_consecutivos (ops : List Operacion) (g : GestorPreguntas)
    (h1 : 1 ≤ g.siguienteId) (h2 : g.siguienteId + ops.length < 2147483648) :
    (g.idsDevueltos ops).filter (fun r => decide (r ≠ -1))
        = (List.range ((g.idsDevueltos ops).filter (fun r => decide (r ≠ -1))).length).map
            (fun (k : Nat) => g.siguienteId + (k : Int))
      ∧ (g.ejecutar ops).siguienteId
        = g.siguienteId + (((g.idsDevueltos ops).filter (fun r => decide (r ≠ -1))).length : Int) := by
  induction ops generalizing g with
  | nil => simp [GestorPreguntas.idsDevueltos, GestorPreguntas.ejecutar]
  | cons op ops ih =>
    have hlen : ((op :: ops).length : Int) = (ops.length : Int) + 1 := by simp
    cases op with
    | agregar q =>
      cases hs : g.esPreguntaSimilar q.texto q.anio with
      | true =>
        have hq := agregarPregunta_similar g q hs
        have ih' := ih g h1 (by omega)
        simp only [GestorPreguntas.idsDevueltos, GestorPreguntas.ejecutar,
          GestorPreguntas.aplicar, hq]
        simpa using ih'
      | false =>
        have hq := agregarPregunta_nueva g q hs
        have hw : wrapInt (g.siguienteId + 1) = g.siguienteId + 1 :=
          wrapInt_eq _ (by omega) (by omega)
        have hne : g.siguienteId ≠ -1 := by omega
        simp only [GestorPreguntas.idsDevueltos, GestorPreguntas.ejecutar,
          GestorPreguntas.aplicar, hq, hw]
        have ih' := ih
          { preguntas := g.preguntas ++ [q], siguienteId := g.siguienteId + 1,
            preguntasPorAnio :=
              if q.anio > 0 then registrarAnio g.preguntasPorAnio q.anio q.texto
              else g.preguntasPorAnio,
            textoAPreguntaId := mapAssign g.textoAPreguntaId q.texto g.siguienteId }
          (by show 1 ≤ g.siguienteId + 1; omega)
          (by show g.siguienteId + 1 + (ops.length : Int) < 2147483648; omega)
        obtain ⟨ih1, ih2⟩ := ih'
        simp only [ne_eq, decide_not] at ih1 ih2 ⊢
        rw [List.filter_cons_of_pos (by simpa using hne)]
        constructor
        · rw [List.length_cons, List.range_succ_eq_map, List.map_cons, List.map_map]
          congr 1
          · simp
          · rw [ih1]
            simp only [List.length_map, List.length_range]
            apply List.map_congr_left
            intro k _
            simp only [Function.comp, Nat.succ_eq_add_one, Nat.cast_add, Nat.cast_one]
            omega
        · rw [ih2, List.length_cons]
          push_cast
          omega
    | actualizar id q =>
      have hs := actualizarPregunta_siguienteId g id q
      have ih' := ih (g.actualizarPregunta id q).2 (by rw [hs]; exact h1) (by rw [hs]; omega)
      simp only [GestorPreguntas.idsDevueltos, GestorPreguntas.ejecutar,
        GestorPreguntas.aplicar]
      rw [hs] at ih'
      exact ih'
    | eliminar id =>
      have hs := eliminarPregunta_siguienteId g id
      have ih' := ih (g.eliminarPregunta id).2 (by rw [hs]; exact h1) (by rw [hs]; omega)
      simp only [GestorPreguntas.idsDevueltos, GestorPreguntas.ejecutar,
        GestorPreguntas.aplicar]
      rw [hs] at ih'
      exact ih'

/-- Fewer than `2^31 - 1` calls leave the counter positive. -/
theorem ejecutar_siguienteId_pos (ops : List Operacion) (h : ops.length < 2147483647) :
    1 ≤ (GestorPreguntas.vacio.ejecutar ops).siguienteId := by
  have h2 : GestorPreguntas.vacio.siguienteId + (ops.length : Int) < 2147483648 := by
    show (1 : Int) + (ops.length : Int) < 2147483648
    omega
  have := (idsDevueltos_consecutivos ops GestorPreguntas.vacio (by decide) h2).2
  rw [this]
  show (1 : Int) ≤ 1 + _
  omega

theorem getPregunta_some_split (g : GestorPreguntas) (id : Int) (a : Pregunta)
    (h : g.getPregunta id = some a) :
    ∃ pre post, g.preguntas = pre ++ a :: post ∧ a.id = id ∧ ∀ p ∈ pre, p.id ≠ id := by
  unfold GestorPreguntas.getPregunta at h
  cases hf : findIf g.preguntas id with
  | none => rw [hf] at h; exact absurd h (by simp)
  | some it =>
    rw [hf] at h
    obtain ⟨pre, b, post, hl, hit, hb, hpre⟩ := findIf_some_split _ _ _ hf
    simp only [hl, hit, getElem?_split, Option.some.injEq] at h
    subst h
    exact ⟨pre, post, hl, hb, hpre⟩

theorem textos_nodup_inj {l : List Pregunta} (h : (l.map Pregunta.texto).Nodup)
    {i j : Nat} {p q : Pregunta} (hp : l[i]? = some p) (hq : l[j]? = some q)
    (ht : p.texto = q.texto) : i = j := by
  obtain ⟨hi, hpi⟩ := List.getElem?_eq_some.mp hp
  obtain ⟨hj, hqj⟩ := List.getElem?_eq_some.mp hq
  have hi' : i < (l.map Pregunta.texto).length := by simpa using hi
  have hj' : j < (l.map Pregunta.texto).length := by simpa using hj
  have hinj : (l.map Pregunta.texto)[i] = (l.map Pregunta.texto)[j] ↔ i = j :=
    h.getElem_inj_iff
  apply hinj.mp
  simp [hpi, hqj, ht]

/-! ## Properties of the repository -/

/-- C1 (id uniqueness), evaluated on the code: two questions built as the console driver
builds them (constructor id `0`) are both inserted, the calls return `1` and `2`, and
both stored questions answer `getId() == 0`; `agregarPregunta` never writes the id it
assigns into the question. -/
theorem agregarPregunta_ids_repetidos :
    GestorPreguntas.vacio.idsDevueltos
        [Operacion.agregar (PreguntaVerdaderoFalso 0 "A" 1 5 true 2020),
         Operacion.agregar (PreguntaVerdaderoFalso 0 "B" 2 5 false 2020)] = [1, 2]
    ∧ (GestorPreguntas.vacio.ejecutar
        [Operacion.agregar (PreguntaVerdaderoFalso 0 "A" 1 5 true 2020),
         Operacion.agregar (PreguntaVerdaderoFalso 0 "B" 2 5 false 2020)]).preguntas.map
          Pregunta.id = [0, 0] := by
  decide

/-- C2 (round trip insert / findById), evaluated on the code: inserting the multiple
choice question with options `a`, `b`, `c` and correct option `1` into the empty
repository returns id `1`, and `getPregunta(1)` then returns `nullptr`; the record is
stored under the id `0` it was constructed with. -/
theorem getPregunta_tras_agregar :
    (GestorPreguntas.vacio.agregarPregunta
        (PreguntaOpcionMultiple 0 "Q" 1 5 ["a", "b", "c"] 1 0)).1 = 1
    ∧ (GestorPreguntas.vacio.agregarPregunta
        (PreguntaOpcionMultiple 0 "Q" 1 5 ["a", "b", "c"] 1 0)).2.getPregunta 1 = none
    ∧ (GestorPreguntas.vacio.agregarPregunta
        (PreguntaOpcionMultiple 0 "Q" 1 5 ["a", "b", "c"] 1 0)).2.getPregunta 0
      = some (PreguntaOpcionMultiple 0 "Q" 1 5 ["a", "b", "c"] 1 0) := by
  decide

/-- C3 as stated fails: it is not true that after every successful
`actualizarPregunta(i, n)` the record at the position found for `i` has id `i`.  In
the repository holding one question with id `0` and text `A`, the update `(0, n)` with
`n.id = 7` and the same text succeeds and the stored id becomes `7`. -/
theorem actualizarPregunta_cambia_id :
    ¬ ∀ (g : GestorPreguntas) (i : Int) (n : Pregunta) (it : Nat),
        findIf g.preguntas i = some it → (g.actualizarPregunta i n).1 = true →
        ((g.actualizarPregunta i n).2.preguntas[it]?).map Pregunta.id = some i := by
  intro h
  have h0 := h (GestorPreguntas.vacio.agregarPregunta
      (PreguntaVerdaderoFalso 0 "A" 1 5 true 2020)).2 0
      (PreguntaVerdaderoFalso 7 "A" 1 5 true 2020) 0 (by decide) (by decide)
  revert h0
  decide

/-- C3 (amended): when `actualizarPregunta(i, n)` succeeds, the position that `find_if`
found for `i` holds `n` as it was passed, so the stored id is the id of `n`; it is `i`
whenever `n` was built with id `i`. -/
theorem actualizarPregunta_id_de_la_nueva (g : GestorPreguntas) (i : Int) (n : Pregunta)
    (h : (g.actualizarPregunta i n).1 = true) :
    ∃ it, findIf g.preguntas i = some it
      ∧ ((g.actualizarPregunta i n).2.preguntas[it]?).map Pregunta.id = some n.id
      ∧ (n.id = i → ((g.actualizarPregunta i n).2.preguntas[it]?).map Pregunta.id = some i) := by
  cases hf : findIf g.preguntas i with
  | none =>
    rw [actualizarPregunta_ausente g i n ((findIf_none_iff _ _).mp hf)] at h
    exact absurd h (by simp)
  | some it =>
    obtain ⟨pre, a, post, hl, hit, ha, hpre⟩ := findIf_some_split _ _ _ hf
    by_cases hr : n.texto ≠ a.texto ∧ (sinRegistro g a).esPreguntaSimilar n.texto n.anio = true
    · rw [actualizarPregunta_rechazada g i n pre a post hl ha hpre hr] at h
      exact absurd h (by simp)
    · rw [actualizarPregunta_aceptada g i n pre a post hl ha hpre hr]
      have hget : (pre ++ n :: post)[it]? = some n := by rw [hit]; exact getElem?_split pre n post
      refine ⟨it, rfl, ?_, ?_⟩
      · show ((pre ++ n :: post)[it]?).map Pregunta.id = some n.id
        rw [hget]; rfl
      · intro hn
        show ((pre ++ n :: post)[it]?).map Pregunta.id = some i
        rw [hget, ← hn]; rfl

theorem actualizarPregunta_id_de_la_nueva_witness :
    ∃ it, findIf (GestorPreguntas.vacio.agregarPregunta
          (PreguntaVerdaderoFalso 0 "A" 1 5 true 2020)).2.preguntas 0 = some it
      ∧ (((GestorPreguntas.vacio.agregarPregunta
          (PreguntaVerdaderoFalso 0 "A" 1 5 true 2020)).2.actualizarPregunta 0
            (PreguntaVerdaderoFalso 0 "B" 3 9 false 2021)).2.preguntas[it]?).map Pregunta.id
          = some (PreguntaVerdaderoFalso 0 "B" 3 9 false 2021).id
      ∧ ((PreguntaVerdaderoFalso 0 "B" 3 9 false 2021).id = 0 →
          (((GestorPreguntas.vacio.agregarPregunta
            (PreguntaVerdaderoFalso 0 "A" 1 5 true 2020)).2.actualizarPregunta 0
              (PreguntaVerdaderoFalso 0 "B" 3 9 false 2021)).2.preguntas[it]?).map Pregunta.id
            = some 0) :=
  actualizarPregunta_id_de_la_nueva
    (GestorPreguntas.vacio.agregarPregunta (PreguntaVerdaderoFalso 0 "A" 1 5 true 2020)).2 0
    (PreguntaVerdaderoFalso 0 "B" 3 9 false 2021) (by decide)

/-- C4 (id assignment order): from the empty repository, along any sequence of fewer
than `2^31 - 1` calls of `agregarPregunta`, `actualizarPregunta` and `eliminarPregunta`
(so that `siguienteId++` stays inside `int`), the values returned by the successful
`agregarPregunta` calls are `1, 2, 3, ...` in call order: the `k`-th success returns `k`,
whatever rejections, updates and deletes come in between, and the counter ends at the
number of successes plus one. -/
theorem ids_asignados_en_orden (ops : List Operacion) (h : ops.length < 2147483647) :
    (GestorPreguntas.vacio.idsDevueltos ops).filter (fun r => decide (r ≠ -1))
        = (List.range
            ((GestorPreguntas.vacio.idsDevueltos ops).filter
              (fun r => decide (r ≠ -1))).length).map (fun (k : Nat) => (k : Int) + 1)
      ∧ (GestorPreguntas.vacio.ejecutar ops).siguienteId
        = (((GestorPreguntas.vacio.idsDevueltos ops).filter
              (fun r => decide (r ≠ -1))).length : Int) + 1 := by
  have h2 : GestorPreguntas.vacio.siguienteId + (ops.length : Int) < 2147483648 := by
    show (1 : Int) + (ops.length : Int) < 2147483648
    omega
  obtain ⟨e1, e2⟩ := idsDevueltos_consecutivos ops GestorPreguntas.vacio (by decide) h2
  constructor
  · rw [e1]
    simp only [List.length_map, List.length_range]
    apply List.map_congr_left
    intro k _
    show (1 : Int) + (k : Int) = (k : Int) + 1
    omega
  · rw [e2]
    show (1 : Int) + _ = _ + 1
    omega

theorem ids_asignados_en_orden_witness :
    (GestorPreguntas.vacio.idsDevueltos
        [Operacion.agregar (PreguntaVerdaderoFalso 0 "A" 1 5 true 2020),
         Operacion.agregar (PreguntaVerdaderoFalso 0 "A" 1 5 true 2021),
         Operacion.eliminar 0,
         Operacion.agregar (PreguntaVerdaderoFalso 0 "A" 1 5 true 2021)]).filter
          (fun r => decide (r ≠ -1))
        = (List.range
            ((GestorPreguntas.vacio.idsDevueltos
              [Operacion.agregar (PreguntaVerdaderoFalso 0 "A" 1 5 true 2020),
               Operacion.agregar (PreguntaVerdaderoFalso 0 "A" 1 5 true 2021),
               Operacion.eliminar 0,
               Operacion.agregar (PreguntaVerdaderoFalso 0 "A" 1 5 true 2021)]).filter
              (fun r => decide (r ≠ -1))).length).map (fun (k : Nat) => (k : Int) + 1)
      ∧ (GestorPreguntas.vacio.ejecutar
          [Operacion.agregar (PreguntaVerdaderoFalso 0 "A" 1 5 true 2020),
           Operacion.agregar (PreguntaVerdaderoFalso 0 "A" 1 5 true 2021),
           Operacion.eliminar 0,
           Operacion.agregar (PreguntaVerdaderoFalso 0 "A" 1 5 true 2021)]).siguienteId
        = (((GestorPreguntas.vacio.idsDevueltos
              [Operacion.agregar (PreguntaVerdaderoFalso 0 "A" 1 5 true 2020),
               Operacion.agregar (PreguntaVerdaderoFalso 0 "A" 1 5 true 2021),
               Operacion.eliminar 0,
               Operacion.agregar (PreguntaVerdaderoFalso 0 "A" 1 5 true 2021)]).filter
              (fun r => decide (r ≠ -1))).length : Int) + 1 :=
  ids_asignados_en_orden _ (by decide)

/-- C5 (insert rejection is exact and atomic): in a repository whose counter is at
least `1`, `agregarPregunta(q)` returns `-1` exactly when `esPreguntaSimilar(q.texto,
q.anio)` holds; in that case the whole object is unchanged, and otherwise the returned
value is at least `1`. -/
theorem agregarPregunta_rechazo_exacto (g : GestorPreguntas) (q : Pregunta)
    (h : 1 ≤ g.siguienteId) :
    ((g.agregarPregunta q).1 = -1 ↔ g.esPreguntaSimilar q.texto q.anio = true)
    ∧ (g.esPreguntaSimilar q.texto q.anio = true → (g.agregarPregunta q).2 = g)
    ∧ (g.esPreguntaSimilar q.texto q.anio = false → 1 ≤ (g.agregarPregunta q).1) := by
  cases hs : g.esPreguntaSimilar q.texto q.anio with
  | true =>
    rw [agregarPregunta_similar g q hs]
    simp
  | false =>
    rw [agregarPregunta_nueva g q hs]
    refine ⟨?_, ?_, ?_⟩
    · constructor
      · intro he
        have he' : g.siguienteId = -1 := he
        omega
      · intro hf; exact absurd hf (by decide)
    · intro hf; exact absurd hf (by decide)
    · intro _; exact h

theorem agregarPregunta_rechazo_exacto_witness :
    (((GestorPreguntas.vacio.agregarPregunta
          (PreguntaVerdaderoFalso 0 "A" 1 5 true 2020)).2.agregarPregunta
        (PreguntaVerdaderoFalso 0 "A" 2 7 false 2021)).1 = -1
      ↔ (GestorPreguntas.vacio.agregarPregunta
          (PreguntaVerdaderoFalso 0 "A" 1 5 true 2020)).2.esPreguntaSimilar
            (PreguntaVerdaderoFalso 0 "A" 2 7 false 2021).texto
            (PreguntaVerdaderoFalso 0 "A" 2 7 false 2021).anio = true)
    ∧ ((GestorPreguntas.vacio.agregarPregunta
          (PreguntaVerdaderoFalso 0 "A" 1 5 true 2020)).2.esPreguntaSimilar
            (PreguntaVerdaderoFalso 0 "A" 2 7 false 2021).texto
            (PreguntaVerdaderoFalso 0 "A" 2 7 false 2021).anio = true →
        ((GestorPreguntas.vacio.agregarPregunta
          (PreguntaVerdaderoFalso 0 "A" 1 5 true 2020)).2.agregarPregunta
            (PreguntaVerdaderoFalso 0 "A" 2 7 false 2021)).2
          = (GestorPreguntas.vacio.agregarPregunta
              (PreguntaVerdaderoFalso 0 "A" 1 5 true 2020)).2)
    ∧ ((GestorPreguntas.vacio.agregarPregunta
          (PreguntaVerdaderoFalso 0 "A" 1 5 true 2020)).2.esPreguntaSimilar
            (PreguntaVerdaderoFalso 0 "A" 2 7 false 2021).texto
            (PreguntaVerdaderoFalso 0 "A" 2 7 false 2021).anio = false →
        1 ≤ ((GestorPreguntas.vacio.agregarPregunta
          (PreguntaVerdaderoFalso 0 "A" 1 5 true 2020)).2.agregarPregunta
            (PreguntaVerdaderoFalso 0 "A" 2 7 false 2021)).1) :=
  agregarPregunta_rechazo_exacto
    (GestorPreguntas.vacio.agregarPregunta (PreguntaVerdaderoFalso 0 "A" 1 5 true 2020)).2
    (PreguntaVerdaderoFalso 0 "A" 2 7 false 2021) (by decide)

/-- C6 (duplicate rejection across years): after fewer than `2^31 - 1` calls from the
empty repository, if no stored question holds the text of `q` and `q.anio > 1`, then
`agregarPregunta(q)` succeeds (returns a value at least `1` and appends `q`), and
afterwards `agregarPregunta(r)` returns `-1` and changes nothing for every `r` with the
text of `q` whose year is `q.anio`, `q.anio + 1` or `q.anio - 1`. -/
theorem rechazo_de_texto_repetido (ops : List Operacion) (hlen : ops.length < 2147483647)
    (q r : Pregunta) (_hy : 1 < q.anio)
    (hT : ∀ p ∈ (GestorPreguntas.vacio.ejecutar ops).preguntas, p.texto ≠ q.texto)
    (hr : r.texto = q.texto)
    (_hra : r.anio = q.anio ∨ r.anio = q.anio + 1 ∨ r.anio = q.anio - 1) :
    1 ≤ ((GestorPreguntas.vacio.ejecutar ops).agregarPregunta q).1
    ∧ ((GestorPreguntas.vacio.ejecutar ops).agregarPregunta q).2.preguntas
        = (GestorPreguntas.vacio.ejecutar ops).preguntas ++ [q]
    ∧ (((GestorPreguntas.vacio.ejecutar ops).agregarPregunta q).2.agregarPregunta r).1 = -1
    ∧ (((GestorPreguntas.vacio.ejecutar ops).agregarPregunta q).2.agregarPregunta r).2
        = ((GestorPreguntas.vacio.ejecutar ops).agregarPregunta q).2 := by
  have hc := ejecutar_consistente GestorPreguntas.vacio ops vacio_consistente
  have hpos := ejecutar_siguienteId_pos ops hlen
  generalize GestorPreguntas.vacio.ejecutar ops = g at hc hpos hT ⊢
  have hs : g.esPreguntaSimilar q.texto q.anio = false := by
    cases hb : g.esPreguntaSimilar q.texto q.anio with
    | false => rfl
    | true =>
      obtain ⟨p, hp, hpt⟩ := (indices_esPreguntaSimilar_iff hc.1 q.texto q.anio).mp hb
      exact absurd hpt (hT p hp)
  have hc' := agregarPregunta_consistente g q hc
  have hq := agregarPregunta_nueva g q hs
  have hmem : q ∈ (g.agregarPregunta q).2.preguntas := by rw [hq]; simp
  have hs' : (g.agregarPregunta q).2.esPreguntaSimilar r.texto r.anio = true :=
    (indices_esPreguntaSimilar_iff hc'.1 r.texto r.anio).mpr ⟨q, hmem, hr.symm⟩
  have hrej := agregarPregunta_similar (g.agregarPregunta q).2 r hs'
  refine ⟨?_, ?_, ?_, ?_⟩
  · rw [hq]; exact hpos
  · rw [hq]
  · rw [hrej]
  · rw [hrej]

theorem rechazo_de_texto_repetido_witness :
    1 ≤ ((GestorPreguntas.vacio.ejecutar
          [Operacion.agregar (PreguntaVerdaderoFalso 0 "A" 1 5 true 2020)]).agregarPregunta
        (PreguntaVerdaderoFalso 0 "T" 1 5 true 2020)).1
    ∧ ((GestorPreguntas.vacio.ejecutar
          [Operacion.agregar (PreguntaVerdaderoFalso 0 "A" 1 5 true 2020)]).agregarPregunta
        (PreguntaVerdaderoFalso 0 "T" 1 5 true 2020)).2.preguntas
        = (GestorPreguntas.vacio.ejecutar
          [Operacion.agregar (PreguntaVerdaderoFalso 0 "A" 1 5 true 2020)]).preguntas
            ++ [PreguntaVerdaderoFalso 0 "T" 1 5 true 2020]
    ∧ (((GestorPreguntas.vacio.ejecutar
          [Operacion.agregar (PreguntaVerdaderoFalso 0 "A" 1 5 true 2020)]).agregarPregunta
        (PreguntaVerdaderoFalso 0 "T" 1 5 true 2020)).2.agregarPregunta
          (PreguntaVerdaderoFalso 0 "T" 1 5 true 2019)).1 = -1
    ∧ (((GestorPreguntas.vacio.ejecutar
          [Operacion.agregar (PreguntaVerdaderoFalso 0 "A" 1 5 true 2020)]).agregarPregunta
        (PreguntaVerdaderoFalso 0 "T" 1 5 true 2020)).2.agregarPregunta
          (PreguntaVerdaderoFalso 0 "T" 1 5 true 2019)).2
        = ((GestorPreguntas.vacio.ejecutar
          [Operacion.agregar (PreguntaVerdaderoFalso 0 "A" 1 5 true 2020)]).agregarPregunta
        (PreguntaVerdaderoFalso 0 "T" 1 5 true 2020)).2 :=
  rechazo_de_texto_repetido
    [Operacion.agregar (PreguntaVerdaderoFalso 0 "A" 1 5 true 2020)] (by decide)
    (PreguntaVerdaderoFalso 0 "T" 1 5 true 2020) (PreguntaVerdaderoFalso 0 "T" 1 5 true 2019)
    (by decide) (by decide) (by decide) (by decide)

/-- C7 (failed update is atomic): in every repository reached from the empty one, when
`actualizarPregunta(i, n)` returns `false` (no question has id `i`, or the new text
differs from the old one and is similar to a registered one), the vector `preguntas`
and `siguienteId` are as before, every year holds the same set of texts in
`preguntasPorAnio`, `textoAPreguntaId` has the same keys, and `buscarPorAnio` returns
the same records for every year. -/
theorem actualizarPregunta_fallida_atomica (ops : List Operacion) (i : Int) (n : Pregunta)
    (hfail : ((GestorPreguntas.vacio.ejecutar ops).actualizarPregunta i n).1 = false) :
    ((GestorPreguntas.vacio.ejecutar ops).actualizarPregunta i n).2.preguntas
        = (GestorPreguntas.vacio.ejecutar ops).preguntas
    ∧ ((GestorPreguntas.vacio.ejecutar ops).actualizarPregunta i n).2.siguienteId
        = (GestorPreguntas.vacio.ejecutar ops).siguienteId
    ∧ (∀ (y : Int) (t : String),
        t ∈ textosDeAnio
            ((GestorPreguntas.vacio.ejecutar ops).actualizarPregunta i n).2.preguntasPorAnio y
          ↔ t ∈ textosDeAnio (GestorPreguntas.vacio.ejecutar ops).preguntasPorAnio y)
    ∧ (∀ t : String,
        mapCount ((GestorPreguntas.vacio.ejecutar ops).actualizarPregunta i n).2.textoAPreguntaId t
          = mapCount (GestorPreguntas.vacio.ejecutar ops).textoAPreguntaId t)
    ∧ (∀ y : Int,
        ((GestorPreguntas.vacio.ejecutar ops).actualizarPregunta i n).2.buscarPorAnio y
          = (GestorPreguntas.vacio.ejecutar ops).buscarPorAnio y) := by
  have hc := ejecutar_consistente GestorPreguntas.vacio ops vacio_consistente
  generalize GestorPreguntas.vacio.ejecutar ops = g at hc hfail ⊢
  have hc' := actualizarPregunta_consistente g i n hc
  have hp : (g.actualizarPregunta i n).2.preguntas = g.preguntas := by
    cases hf : findIf g.preguntas i with
    | none => rw [actualizarPregunta_ausente g i n ((findIf_none_iff _ _).mp hf)]
    | some it =>
      obtain ⟨pre, a, post, hl, _, ha, hpre⟩ := findIf_some_split _ _ _ hf
      by_cases hr : n.texto ≠ a.texto
          ∧ (sinRegistro g a).esPreguntaSimilar n.texto n.anio = true
      · rw [actualizarPregunta_rechazada g i n pre a post hl ha hpre hr]; rfl
      · rw [actualizarPregunta_aceptada g i n pre a post hl ha hpre hr] at hfail
        exact absurd hfail (by simp)
  have hi' := hc'.1
  rw [hp] at hi'
  refine ⟨hp, actualizarPregunta_siguienteId g i n, ?_, ?_, ?_⟩
  · intro y t
    rw [hi'.1, hc.1.1]
  · intro t
    have e1 := hi'.2 t
    have e2 := hc.1.2 t
    unfold mapCount
    by_cases hex : ∃ p ∈ g.preguntas, p.texto = t
    · rw [e1.mpr hex, e2.mpr hex]
    · have n1 : ¬ (mapFind (g.actualizarPregunta i n).2.textoAPreguntaId t).isSome = true :=
        fun hh => hex (e1.mp hh)
      have n2 : ¬ (mapFind g.textoAPreguntaId t).isSome = true := fun hh => hex (e2.mp hh)
      rw [if_neg n1, if_neg n2]
  · intro y
    unfold GestorPreguntas.buscarPorAnio
    rw [hp]

theorem actualizarPregunta_fallida_atomica_witness :
    ((GestorPreguntas.vacio.ejecutar
        [Operacion.agregar (PreguntaVerdaderoFalso 1 "A" 1 5 true 2020),
         Operacion.agregar (PreguntaVerdaderoFalso 2 "B" 1 5 true 2020)]).actualizarPregunta 1
          (PreguntaVerdaderoFalso 1 "B" 1 5 true 2020)).2.preguntas
        = (GestorPreguntas.vacio.ejecutar
            [Operacion.agregar (PreguntaVerdaderoFalso 1 "A" 1 5 true 2020),
             Operacion.agregar (PreguntaVerdaderoFalso 2 "B" 1 5 true 2020)]).preguntas
    ∧ ((GestorPreguntas.vacio.ejecutar
        [Operacion.agregar (PreguntaVerdaderoFalso 1 "A" 1 5 true 2020),
         Operacion.agregar (PreguntaVerdaderoFalso 2 "B" 1 5 true 2020)]).actualizarPregunta 1
          (PreguntaVerdaderoFalso 1 "B" 1 5 true 2020)).2.siguienteId
        = (GestorPreguntas.vacio.ejecutar
            [Operacion.agregar (PreguntaVerdaderoFalso 1 "A" 1 5 true 2020),
             Operacion.agregar (PreguntaVerdaderoFalso 2 "B" 1 5 true 2020)]).siguienteId
    ∧ (∀ (y : Int) (t : String),
        t ∈ textosDeAnio
            ((GestorPreguntas.vacio.ejecutar
              [Operacion.agregar (PreguntaVerdaderoFalso 1 "A" 1 5 true 2020),
               Operacion.agregar (PreguntaVerdaderoFalso 2 "B" 1 5 true 2020)]).actualizarPregunta
                1 (PreguntaVerdaderoFalso 1 "B" 1 5 true 2020)).2.preguntasPorAnio y
          ↔ t ∈ textosDeAnio (GestorPreguntas.vacio.ejecutar
              [Operacion.agregar (PreguntaVerdaderoFalso 1 "A" 1 5 true 2020),
               Operacion.agregar (PreguntaVerdaderoFalso 2 "B" 1 5 true 2020)]).preguntasPorAnio y)
    ∧ (∀ t : String,
        mapCount ((GestorPreguntas.vacio.ejecutar
              [Operacion.agregar (PreguntaVerdaderoFalso 1 "A" 1 5 true 2020),
               Operacion.agregar (PreguntaVerdaderoFalso 2 "B" 1 5 true 2020)]).actualizarPregunta
                1 (PreguntaVerdaderoFalso 1 "B" 1 5 true 2020)).2.textoAPreguntaId t
          = mapCount (GestorPreguntas.vacio.ejecutar
              [Operacion.agregar (PreguntaVerdaderoFalso 1 "A" 1 5 true 2020),
               Operacion.agregar (PreguntaVerdaderoFalso 2 "B" 1 5 true 2020)]).textoAPreguntaId t)
    ∧ (∀ y : Int,
        ((GestorPreguntas.vacio.ejecutar
              [Operacion.agregar (PreguntaVerdaderoFalso 1 "A" 1 5 true 2020),
               Operacion.agregar (PreguntaVerdaderoFalso 2 "B" 1 5 true 2020)]).actualizarPregunta
                1 (PreguntaVerdaderoFalso 1 "B" 1 5 true 2020)).2.buscarPorAnio y
          = (GestorPreguntas.vacio.ejecutar
              [Operacion.agregar (PreguntaVerdaderoFalso 1 "A" 1 5 true 2020),
               Operacion.agregar (PreguntaVerdaderoFalso 2 "B" 1 5 true 2020)]).buscarPorAnio y) :=
  actualizarPregunta_fallida_atomica
    [Operacion.agregar (PreguntaVerdaderoFalso 1 "A" 1 5 true 2020),
     Operacion.agregar (PreguntaVerdaderoFalso 2 "B" 1 5 true 2020)] 1
    (PreguntaVerdaderoFalso 1 "B" 1 5 true 2020) (by decide)

/-- C8 (delete frees text): after fewer than `2^31 - 1` calls from the empty repository,
if `eliminarPregunta(i)` succeeds and the question it removes is `a`, then right
afterwards `agregarPregunta(q)` succeeds (returns a value at least `1` and appends `q`)
for every `q` with the text of `a` whose year is `a.anio`, `a.anio - 1` or `a.anio + 1`. -/
theorem eliminarPregunta_libera_texto (ops : List Operacion) (hlen : ops.length < 2147483647)
    (i : Int) (a q : Pregunta)
    (_hdel : ((GestorPreguntas.vacio.ejecutar ops).eliminarPregunta i).1 = true)
    (ha : (GestorPreguntas.vacio.ejecutar ops).getPregunta i = some a)
    (hq : q.texto = a.texto)
    (_hy : q.anio = a.anio ∨ q.anio = a.anio - 1 ∨ q.anio = a.anio + 1) :
    1 ≤ (((GestorPreguntas.vacio.ejecutar ops).eliminarPregunta i).2.agregarPregunta q).1
    ∧ (((GestorPreguntas.vacio.ejecutar ops).eliminarPregunta i).2.agregarPregunta q).2.preguntas
        = ((GestorPreguntas.vacio.ejecutar ops).eliminarPregunta i).2.preguntas ++ [q] := by
  have hc := ejecutar_consistente GestorPreguntas.vacio ops vacio_consistente
  have hpos := ejecutar_siguienteId_pos ops hlen
  generalize GestorPreguntas.vacio.ejecutar ops = g at hc hpos ha ⊢
  obtain ⟨pre, post, hl, hai, hpre⟩ := getPregunta_some_split g i a ha
  have hc' := eliminarPregunta_consistente g i hc
  have hsid := eliminarPregunta_siguienteId g i
  have hn := hc.2
  rw [hl] at hn
  obtain ⟨hu, _⟩ := nodup_textos_split hn
  have hpreg : (g.eliminarPregunta i).2.preguntas = pre ++ post := by
    rw [eliminarPregunta_presente g i pre a post hl hai hpre]
  have hs : (g.eliminarPregunta i).2.esPreguntaSimilar q.texto q.anio = false := by
    cases hb : (g.eliminarPregunta i).2.esPreguntaSimilar q.texto q.anio with
    | false => rfl
    | true =>
      obtain ⟨p, hp, hpt⟩ := (indices_esPreguntaSimilar_iff hc'.1 q.texto q.anio).mp hb
      rw [hpreg] at hp
      exact absurd (hpt.trans hq) (hu p hp)
  rw [agregarPregunta_nueva _ q hs]
  refine ⟨?_, rfl⟩
  show 1 ≤ (g.eliminarPregunta i).2.siguienteId
  rw [hsid]; exact hpos

theorem eliminarPregunta_libera_texto_witness :
    1 ≤ (((GestorPreguntas.vacio.ejecutar
          [Operacion.agregar (PreguntaVerdaderoFalso 0 "A" 1 5 true 2020)]).eliminarPregunta
            0).2.agregarPregunta (PreguntaVerdaderoFalso 0 "A" 4 8 false 2021)).1
    ∧ (((GestorPreguntas.vacio.ejecutar
          [Operacion.agregar (PreguntaVerdaderoFalso 0 "A" 1 5 true 2020)]).eliminarPregunta
            0).2.agregarPregunta (PreguntaVerdaderoFalso 0 "A" 4 8 false 2021)).2.preguntas
        = ((GestorPreguntas.vacio.ejecutar
          [Operacion.agregar (PreguntaVerdaderoFalso 0 "A" 1 5 true 2020)]).eliminarPregunta
            0).2.preguntas ++ [PreguntaVerdaderoFalso 0 "A" 4 8 false 2021] :=
  eliminarPregunta_libera_texto
    [Operacion.agregar (PreguntaVerdaderoFalso 0 "A" 1 5 true 2020)] (by decide) 0
    (PreguntaVerdaderoFalso 0 "A" 1 5 true 2020) (PreguntaVerdaderoFalso 0 "A" 4 8 false 2021)
    (by decide) (by decide) (by decide) (by decide)

/-- C9 (secondary-index consistency): in every repository reached from the empty one by
calls of `agregarPregunta`, `actualizarPregunta` and `eliminarPregunta`, (a) for every
year `y > 0` the set `preguntasPorAnio[y]` holds exactly the texts of the stored
questions whose year is `y`, and (b) the keys of `textoAPreguntaId` are exactly the
texts of the stored questions. -/
theorem indices_consistentes (ops : List Operacion) :
    (∀ (y : Int) (t : String), 0 < y →
        (t ∈ textosDeAnio (GestorPreguntas.vacio.ejecutar ops).preguntasPorAnio y
          ↔ ∃ p ∈ (GestorPreguntas.vacio.ejecutar ops).preguntas, p.anio = y ∧ p.texto = t))
    ∧ (∀ t : String,
        0 < mapCount (GestorPreguntas.vacio.ejecutar ops).textoAPreguntaId t
          ↔ ∃ p ∈ (GestorPreguntas.vacio.ejecutar ops).preguntas, p.texto = t) := by
  have hc := ejecutar_consistente GestorPreguntas.vacio ops vacio_consistente
  generalize GestorPreguntas.vacio.ejecutar ops = g at hc ⊢
  constructor
  · intro y t hy
    rw [hc.1.1]
    constructor
    · rintro ⟨_, p, hp, ht, ha⟩; exact ⟨p, hp, ha, ht⟩
    · rintro ⟨p, hp, ha, ht⟩; exact ⟨hy, p, hp, ht, ha⟩
  · intro t
    rw [← hc.1.2 t]
    exact mapCount_pos_iff _ _

theorem indices_consistentes_witness :
    ("B" ∈ textosDeAnio (GestorPreguntas.vacio.ejecutar
          [Operacion.agregar (PreguntaVerdaderoFalso 0 "A" 1 5 true 2020),
           Operacion.actualizar 0 (PreguntaVerdaderoFalso 0 "B" 1 5 true 2021),
           Operacion.agregar (PreguntaVerdaderoFalso 0 "A" 1 5 true 2021),
           Operacion.eliminar 0]).preguntasPorAnio 2021
      ↔ ∃ p ∈ (GestorPreguntas.vacio.ejecutar
          [Operacion.agregar (PreguntaVerdaderoFalso 0 "A" 1 5 true 2020),
           Operacion.actualizar 0 (PreguntaVerdaderoFalso 0 "B" 1 5 true 2021),
           Operacion.agregar (PreguntaVerdaderoFalso 0 "A" 1 5 true 2021),
           Operacion.eliminar 0]).preguntas, p.anio = 2021 ∧ p.texto = "B") :=
  (indices_consistentes
    [Operacion.agregar (PreguntaVerdaderoFalso 0 "A" 1 5 true 2020),
     Operacion.actualizar 0 (PreguntaVerdaderoFalso 0 "B" 1 5 true 2021),
     Operacion.agregar (PreguntaVerdaderoFalso 0 "A" 1 5 true 2021),
     Operacion.eliminar 0]).1 2021 "B" (by decide)

/-- C10 (duplicate-prevention invariant): in every repository reached from the empty one
by calls of `agregarPregunta`, `actualizarPregunta` and `eliminarPregunta`, two
questions stored at different positions of `preguntas` have different texts; so no two
stored questions have the same text with equal or adjacent years. -/
theorem textos_distintos (ops : List Operacion) (i j : Nat) (p q : Pregunta)
    (hij : i ≠ j)
    (hp : (GestorPreguntas.vacio.ejecutar ops).preguntas[i]? = some p)
    (hq : (GestorPreguntas.vacio.ejecutar ops).preguntas[j]? = some q) :
    p.texto ≠ q.texto := by
  have hc := ejecutar_consistente GestorPreguntas.vacio ops vacio_consistente
  intro ht
  exact hij (textos_nodup_inj hc.2 hp hq ht)

theorem textos_distintos_witness :
    (PreguntaVerdaderoFalso 0 "B" 1 5 true 2021).texto
      ≠ (PreguntaVerdaderoFalso 0 "A" 1 5 true 2021).texto :=
  textos_distintos
    [Operacion.agregar (PreguntaVerdaderoFalso 0 "A" 1 5 true 2020),
     Operacion.actualizar 0 (PreguntaVerdaderoFalso 0 "B" 1 5 true 2021),
     Operacion.agregar (PreguntaVerdaderoFalso 0 "A" 1 5 true 2021)] 0 1
    (PreguntaVerdaderoFalso 0 "B" 1 5 true 2021) (PreguntaVerdaderoFalso 0 "A" 1 5 true 2021)
    (by decide) (by decide) (by decide)

/-! ## Lemmas on the query loops -/

theorem foldl_push_filter (P : Pregunta → Prop) [DecidablePred P] (l acc : List Pregunta) :
    l.foldl (fun resultado p => if P p then resultado ++ [p] else resultado) acc
      = acc ++ l.filter (fun p => decide (P p)) := by
  induction l generalizing acc with
  | nil => simp
  | cons x xs ih =>
    by_cases hx : P x
    · simp [List.foldl_cons, List.filter_cons, hx, ih]
    · simp [List.foldl_cons, List.filter_cons, hx, ih]

theorem foldl_push_all (l acc : List Pregunta) :
    l.foldl (fun resultado p => resultado ++ [p]) acc = acc ++ l := by
  induction l generalizing acc with
  | nil => simp
  | cons x xs ih => simp [List.foldl_cons, ih]

theorem getTodasLasPreguntas_eq (g : GestorPreguntas) :
    g.getTodasLasPreguntas = g.preguntas := by
  unfold GestorPreguntas.getTodasLasPreguntas
  rw [foldl_push_all]
  simp

theorem foldl_suma (l : List Pregunta) (total : Int) (h : sumaEnRango total l = true) :
    l.foldl (fun tiempoTotal p => wrapInt (tiempoTotal + p.tiempoEstimado)) total
      = total + (l.map Pregunta.tiempoEstimado).sum := by
  induction l generalizing total with
  | nil => simp
  | cons x xs ih =>
    simp only [sumaEnRango, Bool.and_eq_true, decide_eq_true_eq] at h
    obtain ⟨⟨h1, h2⟩, h3⟩ := h
    rw [List.foldl_cons, wrapInt_eq _ h1 h2, ih _ h3, List.map_cons, List.sum_cons]
    omega

theorem calcularTiempoTotal_eq (g : GestorPreguntas) (h : sumaEnRango 0 g.preguntas = true) :
    g.calcularTiempoTotal = (g.preguntas.map Pregunta.tiempoEstimado).sum := by
  unfold GestorPreguntas.calcularTiempoTotal
  rw [foldl_suma _ _ h]
  omega

/-! ## Properties of the repository, continued -/

theorem indices_similar_eq {g : GestorPreguntas} {l : List Pregunta} (h : Indices g l)
    (t : String) (y : Int) : g.esPreguntaSimilar t y = g.esSimilarSoloTexto t := by
  have e1 := indices_esPreguntaSimilar_iff h t y
  have e2 : g.esSimilarSoloTexto t = true ↔ ∃ p ∈ l, p.texto = t := by
    unfold GestorPreguntas.esSimilarSoloTexto
    rw [decide_eq_true_eq, mapCount_pos_iff]
    exact h.2 t
  cases hb : g.esPreguntaSimilar t y with
  | true => exact (e2.mpr (e1.mp hb)).symm
  | false =>
    cases hc : g.esSimilarSoloTexto t with
    | false => rfl
    | true =>
      have := e1.mpr (e2.mp hc)
      rw [hb] at this
      exact absurd this (by decide)

theorem agregarPregunta_eq_soloTexto (g : GestorPreguntas) (q : Pregunta)
    (h : g.esPreguntaSimilar q.texto q.anio = g.esSimilarSoloTexto q.texto) :
    g.agregarPregunta q = g.agregarPreguntaSoloTexto q := by
  unfold GestorPreguntas.agregarPregunta GestorPreguntas.agregarPreguntaSoloTexto
  simp only [h]

theorem actualizarPregunta_eq_soloTexto (g : GestorPreguntas) (i : Int) (n : Pregunta)
    (h : ∀ a, g.getPregunta i = some a →
      (sinRegistro g a).esPreguntaSimilar n.texto n.anio
        = (sinRegistro g a).esSimilarSoloTexto n.texto) :
    g.actualizarPregunta i n = g.actualizarPreguntaSoloTexto i n := by
  cases hf : findIf g.preguntas i with
  | none =>
    simp only [GestorPreguntas.actualizarPregunta, GestorPreguntas.actualizarPreguntaSoloTexto,
      hf]
  | some it =>
    cases hg : g.preguntas[it]? with
    | none =>
      simp only [GestorPreguntas.actualizarPregunta,
        GestorPreguntas.actualizarPreguntaSoloTexto, hf, hg]
    | some a =>
      have ha : g.getPregunta i = some a := by
        simp only [GestorPreguntas.getPregunta, hf, hg]
      have key := h a ha
      simp only [sinRegistro] at key
      simp only [GestorPreguntas.actualizarPregunta,
        GestorPreguntas.actualizarPreguntaSoloTexto, hf, hg, key]

/-- C11 (the year rules are subsumed by the global text rule): in every repository
reached from the empty one by calls of `agregarPregunta`, `actualizarPregunta` and
`eliminarPregunta`, the three-rule check `esPreguntaSimilar(t, y)` equals the single
check that `t` is a key of `textoAPreguntaId`, for every text and year; and
`agregarPregunta` and `actualizarPregunta` return the same value and leave the same
object as their variants that use the single check. -/
theorem reglas_de_anio_subsumidas (ops : List Operacion) :
    (∀ (t : String) (y : Int),
        (GestorPreguntas.vacio.ejecutar ops).esPreguntaSimilar t y
          = (GestorPreguntas.vacio.ejecutar ops).esSimilarSoloTexto t)
    ∧ (∀ q : Pregunta,
        (GestorPreguntas.vacio.ejecutar ops).agregarPregunta q
          = (GestorPreguntas.vacio.ejecutar ops).agregarPreguntaSoloTexto q)
    ∧ (∀ (i : Int) (n : Pregunta),
        (GestorPreguntas.vacio.ejecutar ops).actualizarPregunta i n
          = (GestorPreguntas.vacio.ejecutar ops).actualizarPreguntaSoloTexto i n) := by
  have hc := ejecutar_consistente GestorPreguntas.vacio ops vacio_consistente
  generalize GestorPreguntas.vacio.ejecutar ops = g at hc ⊢
  refine ⟨fun t y => indices_similar_eq hc.1 t y, ?_, ?_⟩
  · intro q
    exact agregarPregunta_eq_soloTexto g q (indices_similar_eq hc.1 _ _)
  · intro i n
    apply actualizarPregunta_eq_soloTexto
    intro a ha
    obtain ⟨pre, post, hl, _, _⟩ := getPregunta_some_split g i a ha
    have hn := hc.2
    rw [hl] at hn
    obtain ⟨hu, _⟩ := nodup_textos_split hn
    have hi := hc.1
    rw [hl] at hi
    exact indices_similar_eq (indices_sinRegistro a hi (mem_split_iff pre post a) hu) _ _

/-- C12 (delete is exact): `eliminarPregunta(i)` returns `false` exactly when no stored
question has id `i`, and then the whole object is unchanged; when it returns `true`, the
vector splits as `pre ++ a :: post` where `a` is the first question with id `i`, the new
vector is `pre ++ post` (the other questions, in their order), and `siguienteId` is
unchanged. -/
theorem eliminarPregunta_exacta (g : GestorPreguntas) (i : Int) :
    ((g.eliminarPregunta i).1 = false ↔ ∀ p ∈ g.preguntas, p.id ≠ i)
    ∧ ((g.eliminarPregunta i).1 = false → (g.eliminarPregunta i).2 = g)
    ∧ ((g.eliminarPregunta i).1 = true →
        ∃ pre a post, g.preguntas = pre ++ a :: post ∧ a.id = i ∧ (∀ p ∈ pre, p.id ≠ i)
          ∧ (g.eliminarPregunta i).2.preguntas = pre ++ post
          ∧ (g.eliminarPregunta i).2.siguienteId = g.siguienteId) := by
  cases hf : findIf g.preguntas i with
  | none =>
    have hno := (findIf_none_iff _ _).mp hf
    rw [eliminarPregunta_ausente g i hno]
    exact ⟨⟨fun _ => hno, fun _ => rfl⟩, fun _ => rfl, fun h => absurd h (by simp)⟩
  | some it =>
    obtain ⟨pre, a, post, hl, _, ha, hpre⟩ := findIf_some_split _ _ _ hf
    rw [eliminarPregunta_presente g i pre a post hl ha hpre]
    refine ⟨⟨fun h => absurd h (by simp), ?_⟩, fun h => absurd h (by simp), ?_⟩
    · intro hno
      exact absurd ha (hno a (by rw [hl]; simp))
    · intro _
      exact ⟨pre, a, post, hl, ha, hpre, rfl, rfl⟩

theorem eliminarPregunta_exacta_witness :
    ∃ pre a post,
      (GestorPreguntas.vacio.ejecutar
        [Operacion.agregar (PreguntaVerdaderoFalso 1 "A" 1 5 true 2020),
         Operacion.agregar (PreguntaVerdaderoFalso 2 "B" 1 5 true 2020),
         Operacion.agregar (PreguntaVerdaderoFalso 2 "C" 1 5 true 0)]).preguntas
          = pre ++ a :: post
      ∧ a.id = 2 ∧ (∀ p ∈ pre, p.id ≠ 2)
      ∧ ((GestorPreguntas.vacio.ejecutar
        [Operacion.agregar (PreguntaVerdaderoFalso 1 "A" 1 5 true 2020),
         Operacion.agregar (PreguntaVerdaderoFalso 2 "B" 1 5 true 2020),
         Operacion.agregar (PreguntaVerdaderoFalso 2 "C" 1 5 true 0)]).eliminarPregunta
          2).2.preguntas = pre ++ post
      ∧ ((GestorPreguntas.vacio.ejecutar
        [Operacion.agregar (PreguntaVerdaderoFalso 1 "A" 1 5 true 2020),
         Operacion.agregar (PreguntaVerdaderoFalso 2 "B" 1 5 true 2020),
         Operacion.agregar (PreguntaVerdaderoFalso 2 "C" 1 5 true 0)]).eliminarPregunta
          2).2.siguienteId
        = (GestorPreguntas.vacio.ejecutar
          [Operacion.agregar (PreguntaVerdaderoFalso 1 "A" 1 5 true 2020),
           Operacion.agregar (PreguntaVerdaderoFalso 2 "B" 1 5 true 2020),
           Operacion.agregar (PreguntaVerdaderoFalso 2 "C" 1 5 true 0)]).siguienteId :=
  (eliminarPregunta_exacta
    (GestorPreguntas.vacio.ejecutar
      [Operacion.agregar (PreguntaVerdaderoFalso 1 "A" 1 5 true 2020),
       Operacion.agregar (PreguntaVerdaderoFalso 2 "B" 1 5 true 2020),
       Operacion.agregar (PreguntaVerdaderoFalso 2 "C" 1 5 true 0)]) 2).2.2 (by decide)

/-- C13 (a successful update replaces wholesale and in place): when
`actualizarPregunta(i, n)` returns `true`, the vector splits as `pre ++ a :: post` where
`a` is the first question with id `i`, the new vector is `pre ++ n :: post` (the same
length, `n` with all its fields at the position of `a`, every other position
unchanged), and `siguienteId` is unchanged. -/
theorem actualizarPregunta_reemplaza (g : GestorPreguntas) (i : Int) (n : Pregunta)
    (h : (g.actualizarPregunta i n).1 = true) :
    ∃ pre a post, g.preguntas = pre ++ a :: post ∧ a.id = i ∧ (∀ p ∈ pre, p.id ≠ i)
      ∧ (g.actualizarPregunta i n).2.preguntas = pre ++ n :: post
      ∧ (g.actualizarPregunta i n).2.preguntas.length = g.preguntas.length
      ∧ (g.actualizarPregunta i n).2.siguienteId = g.siguienteId := by
  cases hf : findIf g.preguntas i with
  | none =>
    rw [actualizarPregunta_ausente g i n ((findIf_none_iff _ _).mp hf)] at h
    exact absurd h (by simp)
  | some it =>
    obtain ⟨pre, a, post, hl, _, ha, hpre⟩ := findIf_some_split _ _ _ hf
    by_cases hr : n.texto ≠ a.texto ∧ (sinRegistro g a).esPreguntaSimilar n.texto n.anio = true
    · rw [actualizarPregunta_rechazada g i n pre a post hl ha hpre hr] at h
      exact absurd h (by simp)
    · rw [actualizarPregunta_aceptada g i n pre a post hl ha hpre hr]
      refine ⟨pre, a, post, hl, ha, hpre, rfl, ?_, rfl⟩
      show (pre ++ n :: post).length = g.preguntas.length
      rw [hl]
      simp

theorem actualizarPregunta_reemplaza_witness :
    ∃ pre a post,
      (GestorPreguntas.vacio.ejecutar
        [Operacion.agregar (PreguntaVerdaderoFalso 1 "A" 1 5 true 2020),
         Operacion.agregar (PreguntaVerdaderoFalso 2 "B" 1 5 true 2020)]).preguntas
          = pre ++ a :: post
      ∧ a.id = 2 ∧ (∀ p ∈ pre, p.id ≠ 2)
      ∧ ((GestorPreguntas.vacio.ejecutar
        [Operacion.agregar (PreguntaVerdaderoFalso 1 "A" 1 5 true 2020),
         Operacion.agregar (PreguntaVerdaderoFalso 2 "B" 1 5 true 2020)]).actualizarPregunta 2
          (PreguntaOpcionMultiple 2 "C" 3 9 ["x", "y"] 0 2021)).2.preguntas
        = pre ++ PreguntaOpcionMultiple 2 "C" 3 9 ["x", "y"] 0 2021 :: post
      ∧ ((GestorPreguntas.vacio.ejecutar
        [Operacion.agregar (PreguntaVerdaderoFalso 1 "A" 1 5 true 2020),
         Operacion.agregar (PreguntaVerdaderoFalso 2 "B" 1 5 true 2020)]).actualizarPregunta 2
          (PreguntaOpcionMultiple 2 "C" 3 9 ["x", "y"] 0 2021)).2.preguntas.length
        = (GestorPreguntas.vacio.ejecutar
          [Operacion.agregar (PreguntaVerdaderoFalso 1 "A" 1 5 true 2020),
           Operacion.agregar (PreguntaVerdaderoFalso 2 "B" 1 5 true 2020)]).preguntas.length
      ∧ ((GestorPreguntas.vacio.ejecutar
        [Operacion.agregar (PreguntaVerdaderoFalso 1 "A" 1 5 true 2020),
         Operacion.agregar (PreguntaVerdaderoFalso 2 "B" 1 5 true 2020)]).actualizarPregunta 2
          (PreguntaOpcionMultiple 2 "C" 3 9 ["x", "y"] 0 2021)).2.siguienteId
        = (GestorPreguntas.vacio.ejecutar
          [Operacion.agregar (PreguntaVerdaderoFalso 1 "A" 1 5 true 2020),
           Operacion.agregar (PreguntaVerdaderoFalso 2 "B" 1 5 true 2020)]).siguienteId :=
  actualizarPregunta_reemplaza
    (GestorPreguntas.vacio.ejecutar
      [Operacion.agregar (PreguntaVerdaderoFalso 1 "A" 1 5 true 2020),
       Operacion.agregar (PreguntaVerdaderoFalso 2 "B" 1 5 true 2020)]) 2
    (PreguntaOpcionMultiple 2 "C" 3 9 ["x", "y"] 0 2021) (by decide)

/-- C14 (a successful insert appends): when `agregarPregunta(q)` does not return `-1`,
`getTodasLasPreguntas()` afterwards is `getTodasLasPreguntas()` before followed by `q`
as last element; the stored vector itself is the old one followed by `q`. -/
theorem agregarPregunta_agrega_al_final (g : GestorPreguntas) (q : Pregunta)
    (h : (g.agregarPregunta q).1 ≠ -1) :
    (g.agregarPregunta q).2.getTodasLasPreguntas = g.getTodasLasPreguntas ++ [q]
    ∧ (g.agregarPregunta q).2.preguntas = g.preguntas ++ [q] := by
  cases hs : g.esPreguntaSimilar q.texto q.anio with
  | true =>
    rw [agregarPregunta_similar g q hs] at h
    exact absurd rfl h
  | false =>
    rw [getTodasLasPreguntas_eq, getTodasLasPreguntas_eq, agregarPregunta_nueva g q hs]
    exact ⟨rfl, rfl⟩

theorem agregarPregunta_agrega_al_final_witness :
    ((GestorPreguntas.vacio.ejecutar
        [Operacion.agregar (PreguntaVerdaderoFalso 0 "A" 1 5 true 2020)]).agregarPregunta
          (PreguntaOpcionMultiple 0 "B" 3 9 ["x", "y"] 1 2021)).2.getTodasLasPreguntas
      = (GestorPreguntas.vacio.ejecutar
          [Operacion.agregar (PreguntaVerdaderoFalso 0 "A" 1 5 true 2020)]).getTodasLasPreguntas
        ++ [PreguntaOpcionMultiple 0 "B" 3 9 ["x", "y"] 1 2021]
    ∧ ((GestorPreguntas.vacio.ejecutar
        [Operacion.agregar (PreguntaVerdaderoFalso 0 "A" 1 5 true 2020)]).agregarPregunta
          (PreguntaOpcionMultiple 0 "B" 3 9 ["x", "y"] 1 2021)).2.preguntas
      = (GestorPreguntas.vacio.ejecutar
          [Operacion.agregar (PreguntaVerdaderoFalso 0 "A" 1 5 true 2020)]).preguntas
        ++ [PreguntaOpcionMultiple 0 "B" 3 9 ["x", "y"] 1 2021] :=
  agregarPregunta_agrega_al_final
    (GestorPreguntas.vacio.ejecutar
      [Operacion.agregar (PreguntaVerdaderoFalso 0 "A" 1 5 true 2020)])
    (PreguntaOpcionMultiple 0 "B" 3 9 ["x", "y"] 1 2021) (by decide)

/-- C15 (filter correctness by Bloom level): the loop of `buscarPorNivelBloom(nivel)`
returns the vector `preguntas` filtered by `getNivelBloom() == nivel`; so it is a
subsequence of `preguntas` (the matching questions once each, in stored order), and a
question is in it exactly when it is stored and has that level. -/
theorem buscarPorNivelBloom_filtra (g : GestorPreguntas) (nivel : Int) :
    g.buscarPorNivelBloom nivel
        = g.preguntas.filter (fun p => decide (p.nivelBloom = nivel))
    ∧ (g.buscarPorNivelBloom nivel).Sublist g.preguntas
    ∧ (∀ p : Pregunta,
        p ∈ g.buscarPorNivelBloom nivel ↔ (p ∈ g.preguntas ∧ p.nivelBloom = nivel)) := by
  have e : g.buscarPorNivelBloom nivel
      = g.preguntas.filter (fun p => decide (p.nivelBloom = nivel)) := by
    unfold GestorPreguntas.buscarPorNivelBloom
    rw [foldl_push_filter (fun p => p.nivelBloom = nivel)]
    simp
  refine ⟨e, ?_, ?_⟩
  · rw [e]; exact List.filter_sublist _
  · intro p
    rw [e]
    simp

/-- C16 (filter correctness by year): the loop of `buscarPorAnio(anio)` returns the
vector `preguntas` filtered by `getAnio() == anio`, in stored order, for every `anio`;
for `anio = 0` this is the questions stored with year `0`, and a question is in the
result exactly when it is stored and has that year. -/
theorem buscarPorAnio_filtra (g : GestorPreguntas) (anio : Int) :
    g.buscarPorAnio anio = g.preguntas.filter (fun p => decide (p.anio = anio))
    ∧ g.buscarPorAnio 0 = g.preguntas.filter (fun p => decide (p.anio = 0))
    ∧ (g.buscarPorAnio anio).Sublist g.preguntas
    ∧ (∀ p : Pregunta, p ∈ g.buscarPorAnio anio ↔ (p ∈ g.preguntas ∧ p.anio = anio)) := by
  have e : ∀ y : Int, g.buscarPorAnio y = g.preguntas.filter (fun p => decide (p.anio = y)) := by
    intro y
    unfold GestorPreguntas.buscarPorAnio
    rw [foldl_push_filter (fun p => p.anio = y)]
    simp
  refine ⟨e anio, e 0, ?_, ?_⟩
  · rw [e]; exact List.filter_sublist _
  · intro p
    rw [e]
    simp

/-- C17 as stated fails: `calcularTiempoTotal()` is not the sum of the estimated times
in every repository.  With two stored questions of `2147483647` and `1` minutes the sum
is `2^31`, which the `int` accumulator of the loop cannot hold. -/
theorem calcularTiempoTotal_desborda :
    ¬ ∀ g : GestorPreguntas,
        g.calcularTiempoTotal = (g.preguntas.map Pregunta.tiempoEstimado).sum := by
  intro h
  have h0 := h (GestorPreguntas.vacio.ejecutar
    [Operacion.agregar (PreguntaVerdaderoFalso 0 "A" 1 2147483647 true 0),
     Operacion.agregar (PreguntaVerdaderoFalso 0 "B" 1 1 true 0)])
  revert h0
  decide

/-- C17 (amended): when every addition of the loop stays within the range of `int`,
`calcularTiempoTotal()` is the sum of the estimated times of the stored questions (`0`
for the empty vector); and when this also holds after the call, deleting the question
found for id `i` lowers the total by exactly its minutes, and a successful
`agregarPregunta(q)` raises it by exactly the minutes of `q`. -/
theorem calcularTiempoTotal_suma (g : GestorPreguntas) (h : sumaEnRango 0 g.preguntas = true) :
    g.calcularTiempoTotal = (g.preguntas.map Pregunta.tiempoEstimado).sum
    ∧ (∀ (i : Int) (a : Pregunta), g.getPregunta i = some a →
        sumaEnRango 0 (g.eliminarPregunta i).2.preguntas = true →
        (g.eliminarPregunta i).2.calcularTiempoTotal
          = g.calcularTiempoTotal - a.tiempoEstimado)
    ∧ (∀ q : Pregunta, (g.agregarPregunta q).1 ≠ -1 →
        sumaEnRango 0 (g.agregarPregunta q).2.preguntas = true →
        (g.agregarPregunta q).2.calcularTiempoTotal
          = g.calcularTiempoTotal + q.tiempoEstimado) := by
  have e := calcularTiempoTotal_eq g h
  refine ⟨e, ?_, ?_⟩
  · intro i a ha h'
    obtain ⟨pre, post, hl, hai, hpre⟩ := getPregunta_some_split g i a ha
    rw [calcularTiempoTotal_eq _ h', e]
    rw [eliminarPregunta_presente g i pre a post hl hai hpre, hl]
    show ((pre ++ post).map Pregunta.tiempoEstimado).sum = _
    simp only [List.map_append, List.map_cons, List.sum_append, List.sum_cons]
    omega
  · intro q hq h'
    cases hs : g.esPreguntaSimilar q.texto q.anio with
    | true =>
      rw [agregarPregunta_similar g q hs] at hq
      exact absurd rfl hq
    | false =>
      rw [calcularTiempoTotal_eq _ h', e]
      rw [agregarPregunta_nueva g q hs]
      show ((g.preguntas ++ [q]).map Pregunta.tiempoEstimado).sum = _
      simp only [List.map_append, List.map_cons, List.map_nil, List.sum_append,
        List.sum_cons, List.sum_nil]
      omega

theorem calcularTiempoTotal_suma_witness :
    (GestorPreguntas.vacio.ejecutar
        [Operacion.agregar (PreguntaVerdaderoFalso 1 "A" 1 5 true 2020),
         Operacion.agregar (PreguntaVerdaderoFalso 2 "B" 1 60 true 2020)]).calcularTiempoTotal
      = ((GestorPreguntas.vacio.ejecutar
        [Operacion.agregar (PreguntaVerdaderoFalso 1 "A" 1 5 true 2020),
         Operacion.agregar (PreguntaVerdaderoFalso 2 "B" 1 60 true 2020)]).preguntas.map
          Pregunta.tiempoEstimado).sum
    ∧ ((GestorPreguntas.vacio.ejecutar
        [Operacion.agregar (PreguntaVerdaderoFalso 1 "A" 1 5 true 2020),
         Operacion.agregar (PreguntaVerdaderoFalso 2 "B" 1 60 true 2020)]).eliminarPregunta
          1).2.calcularTiempoTotal
      = (GestorPreguntas.vacio.ejecutar
        [Operacion.agregar (PreguntaVerdaderoFalso 1 "A" 1 5 true 2020),
         Operacion.agregar (PreguntaVerdaderoFalso 2 "B" 1 60 true 2020)]).calcularTiempoTotal
        - (PreguntaVerdaderoFalso 1 "A" 1 5 true 2020).tiempoEstimado :=
  ⟨(calcularTiempoTotal_suma
      (GestorPreguntas.vacio.ejecutar
        [Operacion.agregar (PreguntaVerdaderoFalso 1 "A" 1 5 true 2020),
         Operacion.agregar (PreguntaVerdaderoFalso 2 "B" 1 60 true 2020)]) (by decide)).1,
   (calcularTiempoTotal_suma
      (GestorPreguntas.vacio.ejecutar
        [Operacion.agregar (PreguntaVerdaderoFalso 1 "A" 1 5 true 2020),
         Operacion.agregar (PreguntaVerdaderoFalso 2 "B" 1 60 true 2020)]) (by decide)).2.1 1
      (PreguntaVerdaderoFalso 1 "A" 1 5 true 2020) (by decide) (by decide)⟩

/-- C18 (update rejection is exact): in every repository reached from the empty one, if
`a` is the question found for id `i` (the one `getPregunta(i)` returns), then
`actualizarPregunta(i, n)` returns `false` exactly when the text of `n` differs from the
text of `a` and `esPreguntaSimilar(n.texto, n.anio)` holds once the registration of `a`
has been erased; this is the case exactly when another stored question holds the text
of `n`.  An update that keeps the text returns `true`, whatever the new year. -/
theorem actualizarPregunta_rechazo_exacto (ops : List Operacion) (i : Int) (a n : Pregunta)
    (ha : (GestorPreguntas.vacio.ejecutar ops).getPregunta i = some a) :
    (((GestorPreguntas.vacio.ejecutar ops).actualizarPregunta i n).1 = false
        ↔ (n.texto ≠ a.texto
            ∧ (sinRegistro (GestorPreguntas.vacio.ejecutar ops) a).esPreguntaSimilar
                n.texto n.anio = true))
    ∧ (((GestorPreguntas.vacio.ejecutar ops).actualizarPregunta i n).1 = false
        ↔ ∃ p ∈ (GestorPreguntas.vacio.ejecutar ops).preguntas, p ≠ a ∧ p.texto = n.texto)
    ∧ (n.texto = a.texto →
        ((GestorPreguntas.vacio.ejecutar ops).actualizarPregunta i n).1 = true) := by
  have hc := ejecutar_consistente GestorPreguntas.vacio ops vacio_consistente
  generalize GestorPreguntas.vacio.ejecutar ops = g at hc ha ⊢
  obtain ⟨pre, post, hl, hai, hpre⟩ := getPregunta_some_split g i a ha
  have hn := hc.2
  rw [hl] at hn
  obtain ⟨hu, _⟩ := nodup_textos_split hn
  have hi := hc.1
  rw [hl] at hi
  have hi1 : Indices (sinRegistro g a) (pre ++ post) :=
    indices_sinRegistro a hi (mem_split_iff pre post a) hu
  have hsim := indices_esPreguntaSimilar_iff hi1 n.texto n.anio
  have hotra : (n.texto ≠ a.texto
      ∧ (sinRegistro g a).esPreguntaSimilar n.texto n.anio = true)
      ↔ ∃ p ∈ g.preguntas, p ≠ a ∧ p.texto = n.texto := by
    constructor
    · rintro ⟨hne, hs⟩
      obtain ⟨p, hp, hpt⟩ := hsim.mp hs
      refine ⟨p, ?_, ?_, hpt⟩
      · rw [hl]; exact (mem_split_iff pre post a p).mpr (Or.inl hp)
      · intro hpa
        rw [hpa] at hpt
        exact hne hpt.symm
    · rintro ⟨p, hp, hpa, hpt⟩
      rw [hl] at hp
      rcases (mem_split_iff pre post a p).mp hp with hp' | hp'
      · refine ⟨?_, hsim.mpr ⟨p, hp', hpt⟩⟩
        intro hna
        exact hu p hp' (hpt.trans hna)
      · exact absurd hp' hpa
  by_cases hr : n.texto ≠ a.texto ∧ (sinRegistro g a).esPreguntaSimilar n.texto n.anio = true
  · rw [actualizarPregunta_rechazada g i n pre a post hl hai hpre hr]
    refine ⟨⟨fun _ => hr, fun _ => rfl⟩, ⟨fun _ => hotra.mp hr, fun _ => rfl⟩, ?_⟩
    intro hna
    exact absurd hna hr.1
  · rw [actualizarPregunta_aceptada g i n pre a post hl hai hpre hr]
    refine ⟨⟨fun h => absurd h (by simp), fun h => absurd h hr⟩,
      ⟨fun h => absurd h (by simp), fun h => absurd (hotra.mpr h) hr⟩, fun _ => rfl⟩

theorem actualizarPregunta_rechazo_exacto_witness :
    (((GestorPreguntas.vacio.ejecutar
        [Operacion.agregar (PreguntaVerdaderoFalso 1 "A" 1 5 true 2020),
         Operacion.agregar (PreguntaVerdaderoFalso 2 "B" 1 5 true 2020)]).actualizarPregunta 1
          (PreguntaVerdaderoFalso 1 "B" 1 5 true 2022)).1 = false
        ↔ ((PreguntaVerdaderoFalso 1 "B" 1 5 true 2022).texto
              ≠ (PreguntaVerdaderoFalso 1 "A" 1 5 true 2020).texto
            ∧ (sinRegistro (GestorPreguntas.vacio.ejecutar
                [Operacion.agregar (PreguntaVerdaderoFalso 1 "A" 1 5 true 2020),
                 Operacion.agregar (PreguntaVerdaderoFalso 2 "B" 1 5 true 2020)])
                (PreguntaVerdaderoFalso 1 "A" 1 5 true 2020)).esPreguntaSimilar
                  (PreguntaVerdaderoFalso 1 "B" 1 5 true 2022).texto
                  (PreguntaVerdaderoFalso 1 "B" 1 5 true 2022).anio = true))
    ∧ (((GestorPreguntas.vacio.ejecutar
        [Operacion.agregar (PreguntaVerdaderoFalso 1 "A" 1 5 true 2020),
         Operacion.agregar (PreguntaVerdaderoFalso 2 "B" 1 5 true 2020)]).actualizarPregunta 1
          (PreguntaVerdaderoFalso 1 "B" 1 5 true 2022)).1 = false
        ↔ ∃ p ∈ (GestorPreguntas.vacio.ejecutar
            [Operacion.agregar (PreguntaVerdaderoFalso 1 "A" 1 5 true 2020),
             Operacion.agregar (PreguntaVerdaderoFalso 2 "B" 1 5 true 2020)]).preguntas,
            p ≠ PreguntaVerdaderoFalso 1 "A" 1 5 true 2020
              ∧ p.texto = (PreguntaVerdaderoFalso 1 "B" 1 5 true 2022).texto)
    ∧ ((PreguntaVerdaderoFalso 1 "B" 1 5 true 2022).texto
          = (PreguntaVerdaderoFalso 1 "A" 1 5 true 2020).texto →
        ((GestorPreguntas.vacio.ejecutar
          [Operacion.agregar (PreguntaVerdaderoFalso 1 "A" 1 5 true 2020),
           Operacion.agregar (PreguntaVerdaderoFalso 2 "B" 1 5 true 2020)]).actualizarPregunta 1
            (PreguntaVerdaderoFalso 1 "B" 1 5 true 2022)).1 = true) :=
  actualizarPregunta_rechazo_exacto
    [Operacion.agregar (PreguntaVerdaderoFalso 1 "A" 1 5 true 2020),
     Operacion.agregar (PreguntaVerdaderoFalso 2 "B" 1 5 true 2020)] 1
    (PreguntaVerdaderoFalso 1 "A" 1 5 true 2020) (PreguntaVerdaderoFalso 1 "B" 1 5 true 2022)
    (by decide)

end Paradigmas
